import Mathlib

/-!
Verification development for the DoomBot CS2 statistics engine.

The repository's analysis core lives in `src/utils/dataFormatter.ts` (unit
normalisation and benchmark comparison; the repository carries two revisions
of this module, an older snapshot concatenated into `dataFormatter.ts` and the
current revision in `unnamed/part_003` whose exports match what the analysis
engine imports) and in the analysis engine (`analyseAim` … `buildImprovementReport`).
This file gives a shallow embedding of those functions over ℚ: JavaScript
numbers are modelled as rationals, missing/NaN numeric inputs as `none`,
strings as Lean strings, and JavaScript runtime behaviours (`Math.round`,
`toFixed`, `String.includes`, stable `Array.sort`) as explicit definitions.
-/

/-- Embedding of JavaScript `Math.round` (and of the rounding done by
`Number.toFixed`, which also picks the larger of two candidates on ties):
round half towards positive infinity. -/
def jsRound (q : ℚ) : ℤ := ⌊q + 1/2⌋

/-- Embedding of `Number.prototype.toFixed(d)`: render `q` with `d` decimal
digits, rounding half up. (JavaScript's `"-0.0"` for small negatives is not
reproduced; no claim depends on it.) -/
def ratToFixed (q : ℚ) (d : ℕ) : String :=
  let n : ℤ := jsRound (q * (10 : ℚ) ^ d)
  let sign : String := if n < 0 then "-" else ""
  let s : String := toString n.natAbs
  if d = 0 then sign ++ s
  else
    let s : String := if s.length < d + 1 then
      String.mk (List.replicate (d + 1 - s.length) '0') ++ s else s
    sign ++ s.take (s.length - d) ++ "." ++ s.drop (s.length - d)

/-- Embedding of JavaScript template interpolation of a number. The analysis
engine only interpolates integer-valued numbers this way; non-integral
rationals render as a fraction, which contains no letters and so cannot affect
any substring test the engine performs. -/
def jsNumStr (q : ℚ) : String :=
  if q.den = 1 then toString q.num else toString q.num ++ "/" ++ toString q.den

/-- Embedding of JavaScript `s.includes(pat)`: substring test. -/
def jsIncludes (s pat : String) : Bool := decide (pat.data <:+: s.data)

/-! ## dataFormatter.ts -/

/-- The two Leetify API endpoint kinds (`type ApiEndpoint = 'profile' | 'match'`;
`match` is a Lean keyword, hence `matchApi`). -/
inductive ApiEndpoint
  | profile
  | matchApi
deriving DecidableEq

/-- `API_FIELD_FORMATS[api].decimal_fields` (current revision, which also lists
`clutch` and `opening` as profile decimal fields). -/
def decimal_fields (api : ApiEndpoint) : List String :=
  match api with
  | .profile =>
    ["winrate",
     "preaim",
     "utility_on_death_avg",
     "he_foes_damage_avg",
     "he_friends_damage_avg",
     "reaction_time_ms",
     "flashbang_hit_foe_avg_duration",
     "flashbang_thrown",
     "trade_kill_opportunities_per_round",
     "flashbang_hit_foe_per_flashbang",
     "flashbang_hit_friend_per_flashbang",
     "clutch",
     "opening"]
  | .matchApi =>
    ["accuracy_enemy_spotted",
     "accuracy_head",
     "counter_strafing_shots_good_ratio",
     "trade_kill_attempts_percentage",
     "trade_kills_success_percentage",
     "traded_death_attempts_percentage",
     "traded_deaths_success_percentage",
     "rounds_survived_percentage",
     "spray_accuracy"]

/-- `API_FIELD_FORMATS[api].percentage_fields`. -/
def percentage_fields (api : ApiEndpoint) : List String :=
  match api with
  | .profile =>
    ["accuracy_enemy_spotted",
     "accuracy_head",
     "counter_strafing_good_shots_ratio",
     "ct_opening_aggression_success_rate",
     "ct_opening_duel_success_percentage",
     "t_opening_aggression_success_rate",
     "t_opening_duel_success_percentage",
     "flashbang_leading_to_kill",
     "traded_deaths_success_percentage",
     "trade_kills_success_percentage",
     "spray_accuracy"]
  | .matchApi =>
    ["ct_opening_duel_success_percentage",
     "t_opening_duel_success_percentage"]

/-- `normalizeToDecimal(value, fieldName, sourceApi)`. A `none` value stands
for `null` / `undefined` / `NaN`, which the source maps to 0. -/
def normalizeToDecimal (value : Option ℚ) (fieldName : String)
    (sourceApi : ApiEndpoint) : ℚ :=
  match value with
  | none => 0
  | some v =>
    if fieldName ∈ decimal_fields sourceApi then v
    else if fieldName ∈ percentage_fields sourceApi then
      match sourceApi with
      | .profile => v / 100
      | .matchApi => v
    else if 1 < v then v / 100 else v

/-- `formatAsPercentage(decimalValue, decimals)`. -/
def formatAsPercentage (decimalValue : ℚ) (decimals : ℕ) : String :=
  ratToFixed (decimalValue * 100) decimals ++ "%"

/-- `formatApiValueAsPercentage(value, fieldName, sourceApi, decimals)`. -/
def formatApiValueAsPercentage (value : Option ℚ) (fieldName : String)
    (sourceApi : ApiEndpoint) (decimals : ℕ) : String :=
  formatAsPercentage (normalizeToDecimal value fieldName sourceApi) decimals

/-- The `ratings` sub-table of `BENCHMARK_DECIMALS` (current revision: mixed
scales, documented in the source as the Premier 15k–19k averages). -/
structure BenchmarkRatings where
  poor_100 : ℚ
  below_avg_100 : ℚ
  average_100 : ℚ
  aim : ℚ
  positioning : ℚ
  utility : ℚ
  poor_rel : ℚ
  below_avg_rel : ℚ
  average_rel : ℚ
  clutch : ℚ
  opening : ℚ
deriving DecidableEq

/-- `BENCHMARK_DECIMALS.ratings`. -/
def BENCHMARK_DECIMALS_ratings : BenchmarkRatings :=
  ⟨35, 45, 60, 66, 53, 58, -6, -2, 3, 1049/100, 1/100⟩

/-- `BENCHMARK_DECIMALS.stats[f]`: the per-metric benchmark table (identical in
both revisions of the module), as a partial lookup. -/
def BENCHMARK_DECIMALS_stats (f : String) : Option ℚ :=
  if f = "accuracy_enemy_spotted" then some (18/100)
  else if f = "counter_strafing_good_shots_ratio" then some (55/100)
  else if f = "ct_opening_duel_success_percentage" then some (37/100)
  else if f = "t_opening_duel_success_percentage" then some (37/100)
  else if f = "ct_opening_aggression_success_rate" then some (35/100)
  else if f = "t_opening_aggression_success_rate" then some (40/100)
  else if f = "flashbang_hit_foe_per_flashbang" then some (6/10)
  else if f = "flashbang_hit_friend_per_flashbang" then some (4/10)
  else if f = "flashbang_leading_to_kill" then some (15/100)
  else if f = "traded_deaths_success_percentage" then some (45/100)
  else if f = "trade_kills_success_percentage" then some (45/100)
  else if f = "accuracy_head" then some (40/100)
  else if f = "preaim" then some (5/10)
  else if f = "spray_accuracy" then some (35/100)
  else if f = "he_foes_damage_avg" then some 20
  else if f = "utility_on_death_avg" then some 200
  else if f = "reaction_time_ms" then some 350
  else if f = "flashbang_hit_foe_avg_duration" then some (15/10)
  else if f = "flashbang_thrown" then some 1
  else if f = "he_friends_damage_avg" then some 5
  else if f = "trade_kill_opportunities_per_round" then some (3/10)
  else none

/-- The `nonPercentageFields` list local to `compareAgainstBenchmark`. -/
def nonPercentageFields : List String :=
  ["he_foes_damage_avg",
   "utility_on_death_avg",
   "reaction_time_ms",
   "flashbang_hit_foe_avg_duration",
   "flashbang_thrown",
   "he_friends_damage_avg",
   "trade_kill_opportunities_per_round",
   "preaim"]

/-- The `lowerIsBetterFields` list local to `compareAgainstBenchmark`. -/
def lowerIsBetterFields : List String :=
  ["reaction_time_ms",
   "utility_on_death_avg",
   "he_friends_damage_avg",
   "flashbang_hit_friend_per_flashbang"]

/-- `compareAgainstBenchmark(apiValue, fieldName, sourceApi)`. Note the source
function has exactly these three parameters; the benchmark always comes from
the module-global `BENCHMARK_DECIMALS.stats`. -/
def compareAgainstBenchmark (apiValue : ℚ) (fieldName : String)
    (sourceApi : ApiEndpoint) : Bool :=
  match BENCHMARK_DECIMALS_stats fieldName with
  | none => true
  | some benchmark =>
    if fieldName ∈ nonPercentageFields then
      if fieldName ∈ lowerIsBetterFields then decide (apiValue ≤ benchmark)
      else decide (benchmark ≤ apiValue)
    else
      let normalizedValue := normalizeToDecimal (some apiValue) fieldName sourceApi
      if fieldName ∈ lowerIsBetterFields then decide (normalizedValue ≤ benchmark)
      else decide (benchmark ≤ normalizedValue)

/-- `formatLeetifyRating(rating)`. -/
def formatLeetifyRating (rating : ℚ) : String :=
  (if 0 ≤ rating then "+" else "") ++ ratToFixed rating 2

/-- Result shape of `getLeetifyRatingLevel`. -/
structure RatingLevel where
  level : String
  color : String
  emoji : String
deriving DecidableEq

/-- `getLeetifyRatingLevel(rating)`. -/
def getLeetifyRatingLevel (rating : ℚ) : RatingLevel :=
  if 8 ≤ rating then ⟨"Excellent", "🟢", "🔥"⟩
  else if 3 ≤ rating then ⟨"Good", "🟢", "✨"⟩
  else if -2 ≤ rating then ⟨"Average", "🟡", "👍"⟩
  else if -6 ≤ rating then ⟨"Below Average", "🟠", "👎"⟩
  else ⟨"Poor", "🔴", "💀"⟩

/-- Result shape of `getBenchmarkComparison`. -/
structure BenchmarkComparison where
  meetsbenchmark : Bool
  performance : String
  improvementNeeded : String
  percentageAboveBenchmark : ℚ
deriving DecidableEq

/-- `getBenchmarkComparison(apiValue, fieldName, sourceApi)`. Its inverted-metric
set names only three fields (it omits `flashbang_hit_friend_per_flashbang`,
unlike `compareAgainstBenchmark`). -/
def getBenchmarkComparison (apiValue : ℚ) (fieldName : String)
    (sourceApi : ApiEndpoint) : BenchmarkComparison :=
  match BENCHMARK_DECIMALS_stats fieldName with
  | none => ⟨true, "Average", "None", 0⟩
  | some benchmark =>
    let normalizedValue := normalizeToDecimal (some apiValue) fieldName sourceApi
    let inverted : Bool := fieldName = "reaction_time_ms" ∨
      fieldName = "he_friends_damage_avg" ∨ fieldName = "utility_on_death_avg"
    let meets : Bool := if inverted then decide (normalizedValue ≤ benchmark)
      else decide (benchmark ≤ normalizedValue)
    let pct : ℚ := if inverted then (benchmark - normalizedValue) / benchmark * 100
      else (normalizedValue - benchmark) / benchmark * 100
    let performance : String :=
      if 30 ≤ pct then "Excellent"
      else if 10 ≤ pct then "Good"
      else if -5 ≤ pct then "Average"
      else if -20 ≤ pct then "Below Average"
      else "Poor"
    let improvementNeeded : String :=
      if 30 ≤ pct then "None"
      else if 10 ≤ pct then "None"
      else if -5 ≤ pct then "Minor"
      else if -20 ≤ pct then "Moderate"
      else "Major"
    ⟨meets, performance, improvementNeeded, (jsRound (pct * 10) : ℚ) / 10⟩

/-! ## Data model (types/improvement.ts) -/

/-- The `stats` block of `RawLeetifyProfile`. The source field
`counter_strafing_good_shots_ratio` is shortened to
`counter_strafing_good_shots` as a Lean field name; every string key passed to
the normaliser and comparator keeps the full source spelling. -/
structure Stats where
  accuracy_enemy_spotted : ℚ
  accuracy_head : ℚ
  counter_strafing_good_shots : ℚ
  ct_opening_duel_success_percentage : ℚ
  t_opening_duel_success_percentage : ℚ
  ct_opening_aggression_success_rate : ℚ
  t_opening_aggression_success_rate : ℚ
  flashbang_hit_foe_avg_duration : ℚ
  flashbang_hit_foe_per_flashbang : ℚ
  flashbang_hit_friend_per_flashbang : ℚ
  flashbang_leading_to_kill : ℚ
  flashbang_thrown : ℚ
  he_foes_damage_avg : ℚ
  he_friends_damage_avg : ℚ
  preaim : ℚ
  reaction_time_ms : ℚ
  spray_accuracy : ℚ
  traded_deaths_success_percentage : ℚ
  trade_kill_opportunities_per_round : ℚ
  trade_kills_success_percentage : ℚ
  utility_on_death_avg : ℚ
deriving DecidableEq

/-- The `rating` block of `RawLeetifyProfile`. -/
structure Rating where
  aim : ℚ
  positioning : ℚ
  utility : ℚ
  clutch : ℚ
  opening : ℚ
  ct_leetify : ℚ
  t_leetify : ℚ
deriving DecidableEq

/-- The optional `ranks` block (only the fields the engine reads). -/
structure Ranks where
  leetify : Option ℚ
  premier : Option ℚ
deriving DecidableEq

/-- `RawLeetifyProfile`, with the `rating` and `stats` blocks present (their
absence is a caller-side precondition per the spec). -/
structure RawLeetifyProfile where
  name : String
  ranks : Option Ranks
  rating : Rating
  stats : Stats
deriving DecidableEq

/-- `ImprovementArea`. -/
structure ImprovementArea where
  category : String
  rating : ℚ
  emoji : String
  issues : List String
  drills : List String
  resourceTags : List String
deriving DecidableEq

/-- `SideSpecificInsights`. -/
structure SideSpecificInsights where
  ctInsights : List String
  tInsights : List String
  ctDrills : List String
  tDrills : List String
  ctResourceTags : List String
  tResourceTags : List String
deriving DecidableEq

/-- `SideBalance` (`weakSide` holds `"CT"`, `"T"` or `none` for `null`). -/
structure SideBalance where
  hasSideImbalance : Bool
  weakSide : Option String
  advice : String
deriving DecidableEq

/-- `CrossInsight`. -/
structure CrossInsight where
  label : String
  detail : String
deriving DecidableEq

/-- `ImprovementReport`. -/
structure ImprovementReport where
  areas : List ImprovementArea
  focusAreas : List ImprovementArea
  playerName : String
  sideBalance : SideBalance
  crossInsights : List CrossInsight
  sideInsights : SideSpecificInsights
deriving DecidableEq

/-- A benchmark tier as the engine consumes it: a ratings sub-table plus a
stats sub-table (spec §3, `BenchmarkTier`). -/
structure BenchmarkTier where
  ratings : BenchmarkRatings
  stats : String → Option ℚ

/-! ## Analysis engine: per-category analyzers

The engine passes a fourth `benchmarkTier` argument to some
`compareAgainstBenchmark` call sites; the function has three parameters, so at
runtime the extra argument is not bound and the comparison always reads the
global table. The embedding therefore calls the three-parameter function. -/

/-- The synthetic performing-well issue of `analyseAim` (its final branch). -/
def aimSyntheticIssue (rating : ℚ) (benchmarkTier : BenchmarkTier) : String :=
  let difference := rating - benchmarkTier.ratings.aim
  let performance := if 15 ≤ difference then "excellent"
    else if 5 ≤ difference then "good" else "solid"
  "Aim fundamentals are " ++ performance ++ " (" ++ jsNumStr rating ++ "/100)"

/-- `analyseAim(stats, rating, benchmarkTier)`. -/
def analyseAim (stats : Stats) (rating : ℚ) (benchmarkTier : BenchmarkTier) :
    ImprovementArea :=
  let accOk := compareAgainstBenchmark stats.accuracy_enemy_spotted
    "accuracy_enemy_spotted" .profile
  let headOk := compareAgainstBenchmark stats.accuracy_head "accuracy_head" .profile
  let csOk := compareAgainstBenchmark stats.counter_strafing_good_shots
    "counter_strafing_good_shots_ratio" .profile
  let sprayOk := compareAgainstBenchmark stats.spray_accuracy "spray_accuracy" .profile
  let preaimOk := compareAgainstBenchmark stats.preaim "preaim" .profile
  let rtOk := compareAgainstBenchmark stats.reaction_time_ms "reaction_time_ms" .profile
  let issues :=
    (if accOk then [] else
      ["Low accuracy when enemy spotted (" ++
        formatApiValueAsPercentage (some stats.accuracy_enemy_spotted)
          "accuracy_enemy_spotted" .profile 1 ++ " — aim for 18%+)"]) ++
    (if accOk && !headOk then
      ["You hit your shots but aim body too often (" ++
        formatApiValueAsPercentage (some stats.accuracy_head) "accuracy_head"
          .profile 1 ++ " headshots)"]
     else if !headOk then
      ["Low headshot accuracy (" ++
        formatApiValueAsPercentage (some stats.accuracy_head) "accuracy_head"
          .profile 1 ++ " — aim for 40%+)"]
     else []) ++
    (if csOk then [] else
      ["You\x27re firing while still moving too often (" ++
        formatApiValueAsPercentage (some stats.counter_strafing_good_shots)
          "counter_strafing_good_shots_ratio" .profile 1 ++ " clean shots)"]) ++
    (if sprayOk then [] else
      ["Spray control is weak (" ++
        formatApiValueAsPercentage (some stats.spray_accuracy) "spray_accuracy"
          .profile 1 ++ " accuracy in sprays)"]) ++
    (if preaimOk then [] else
      ["Not pre-aiming common angles (preaim score: " ++
        ratToFixed stats.preaim 2 ++ ")"]) ++
    (if rtOk then [] else
      ["Reaction time is slow (" ++ ratToFixed stats.reaction_time_ms 0 ++
        "ms avg — aim for sub-350ms)"])
  let drills :=
    (if accOk then [] else
      ["aim_botz — 100 kills at close/medium range daily, focus on crosshair placement not speed"]) ++
    (if accOk && !headOk then
      ["Your accuracy is fine — the problem is crosshair placement. Focus on keeping crosshair at head height at all times"]
     else if !headOk then
      ["Play deathmatch with AK only, force yourself to tap/burst at head level — never spray at body"]
     else []) ++
    (if csOk then [] else
      ["counter_strafing workshop map — only shoot when fully stopped, build the habit before worrying about speed"]) ++
    (if sprayOk then [] else
      ["recoil master workshop — learn AK and M4 spray patterns, 15 mins a day for 2 weeks will fix this"]) ++
    (if preaimOk then [] else
      ["deathmatch on your most played map — move crosshair to head height on every corner BEFORE you see anyone"]) ++
    (if rtOk then [] else
      ["aim_botz reflex training — 200 kills, reaction mode. Also check your monitor refresh rate and in-game sensitivity"])
  let resourceTags :=
    (if accOk then [] else ["aim_accuracy"]) ++
    (if accOk && !headOk then ["crosshair_placement"]
     else if !headOk then ["crosshair_placement"] else []) ++
    (if csOk then [] else ["counter_strafing"]) ++
    (if sprayOk then [] else ["spray_control"]) ++
    (if preaimOk then [] else ["crosshair_placement"]) ++
    (if rtOk then [] else ["reaction_time"])
  let issues := if issues.isEmpty then [aimSyntheticIssue rating benchmarkTier]
    else issues
  ⟨"Aim", rating, "🎯", issues, drills, resourceTags⟩

/-- The synthetic performing-well issue of `analysePositioning`. -/
def positioningSyntheticIssue (rating : ℚ) (benchmarkTier : BenchmarkTier) : String :=
  let difference := rating - benchmarkTier.ratings.positioning
  let performance := if 15 ≤ difference then "excellent"
    else if 5 ≤ difference then "good" else "solid"
  "Positioning is " ++ performance ++ " (" ++ jsNumStr rating ++ "/100)"

/-- `analysePositioning(stats, rating, weakSide, benchmarkTier)`. -/
def analysePositioning (stats : Stats) (rating : ℚ) (weakSide : Option String)
    (benchmarkTier : BenchmarkTier) : ImprovementArea :=
  let ctOk := compareAgainstBenchmark stats.ct_opening_duel_success_percentage
    "ct_opening_duel_success_percentage" .profile
  let tOk := compareAgainstBenchmark stats.t_opening_duel_success_percentage
    "t_opening_duel_success_percentage" .profile
  let tradedOk := compareAgainstBenchmark stats.traded_deaths_success_percentage
    "traded_deaths_success_percentage" .profile
  let ctPct := formatApiValueAsPercentage (some stats.ct_opening_duel_success_percentage)
    "ct_opening_duel_success_percentage" .profile 1
  let tPct := formatApiValueAsPercentage (some stats.t_opening_duel_success_percentage)
    "t_opening_duel_success_percentage" .profile 1
  let issues :=
    (if ctOk then [] else
      if weakSide = some "CT" then
        ["Your CT side is your weak point — CT opening duels failing at " ++ ctPct]
      else
        ["Losing CT opening duels too often (" ++ ctPct ++ " success)"]) ++
    (if tOk then [] else
      if weakSide = some "T" then
        ["Your T side is your bottleneck — T opening duels failing at " ++ tPct]
      else
        ["Losing T-side opening duels (" ++ tPct ++ " success)"]) ++
    (if tradedOk then [] else
      ["Not getting traded when you die (" ++
        formatApiValueAsPercentage (some stats.traded_deaths_success_percentage)
          "traded_deaths_success_percentage" .profile 1 ++ " of deaths traded)"])
  let drills :=
    (if ctOk then [] else
      (if weakSide = some "CT" then
        ["Focus CT practice: play retake servers and learn 2 off-angles per site on your main maps",
         "Study CT positioning guides - your aim isn\x27t the problem, your angles are"]
      else
        ["Play tighter angles on CT — wide peeking on CT side is almost always wrong at non-pro level"]) ++
      ["Learn 2-3 \"safe\" spots per site per map that give you an angle advantage, not information"]) ++
    (if tOk then [] else
      (if weakSide = some "T" then
        ["Practice T-side entry routes specifically — pick one map and learn 3 entry executes with utility",
         "Focus on T positioning fundamentals - you need better timing and utility support"]
      else
        ["Stop peeking without information — use utility or teammates to take space, don\x27t lone-wolf it"]) ++
      ["Learn when to shoulder peek vs full peek — shoulder peeking costs nothing and gives info"]) ++
    (if tradedOk then [] else
      ["Communicate before peeking — tell teammates where you\x27re going so they can trade you",
       "Don\x27t peek alone deep into the map, play closer to teammates so dying costs the enemy something"])
  let resourceTags :=
    (if ctOk then [] else ["ct_angles", "ct_positioning"]) ++
    (if tOk then [] else ["t_entry", "shoulder_peeking", "t_positioning"]) ++
    (if tradedOk then [] else ["trade_positioning", "communication"])
  if issues.isEmpty then
    ⟨"Positioning", rating, "🗺️",
     [positioningSyntheticIssue rating benchmarkTier], [], []⟩
  else
    ⟨"Positioning", rating, "🗺️", issues, drills, resourceTags⟩

/-- The synthetic performing-well issue of `analyseUtility`. -/
def utilitySyntheticIssue (rating : ℚ) (benchmarkTier : BenchmarkTier) : String :=
  let difference := rating - benchmarkTier.ratings.utility
  let performance := if 15 ≤ difference then "excellent"
    else if 5 ≤ difference then "good" else "solid"
  "Utility usage is " ++ performance ++ " (" ++ jsNumStr rating ++ "/100)"

/-- Issue strings of `analyseUtility`, one segment per source check, given the
per-check comparator results. -/
def analyseUtilityIssues (stats : Stats)
    (ffOk foeOk killOk durOk thrownOk heOk tradeOk deathOk : Bool) : List String :=
  (if ffOk then [] else
    ["Teamflashing too much (" ++
      ratToFixed stats.flashbang_hit_friend_per_flashbang 2 ++ " teammates per flash)"]) ++
  (if foeOk then [] else
    ["Flashes aren\x27t hitting enemies (" ++
      ratToFixed stats.flashbang_hit_foe_per_flashbang 2 ++ " enemies per flash)"]) ++
  (if killOk then [] else
    ["Flashes rarely converting to kills (" ++
      formatApiValueAsPercentage (some stats.flashbang_leading_to_kill)
        "flashbang_leading_to_kill" .profile 1 ++ " conversion)"]) ++
  (if foeOk && !durOk then
    ["Your flashes reach enemies but they dodge them quickly (" ++
      ratToFixed stats.flashbang_hit_foe_avg_duration 1 ++ "s avg blind)"]
   else if !durOk then
    ["Flashes only blind enemies for " ++
      ratToFixed stats.flashbang_hit_foe_avg_duration 1 ++ "s avg (aim for 1.5s+)"]
   else []) ++
  (if thrownOk then [] else
    ["Throwing very few flashes per round (" ++
      ratToFixed stats.flashbang_thrown 1 ++ " avg — aim for 1.0+)"]) ++
  (if heOk then [] else
    ["HE grenades doing barely any damage (" ++
      ratToFixed stats.he_foes_damage_avg 1 ++ " avg damage to enemies)"]) ++
  (if tradeOk then [] else
    ["Not converting trade kill opportunities (" ++
      formatApiValueAsPercentage (some stats.trade_kills_success_percentage)
        "trade_kills_success_percentage" .profile 1 ++ " success)"]) ++
  (if deathOk then [] else
    ["Dying with too many nades (avg " ++
      ratToFixed stats.utility_on_death_avg 0 ++ " value on death)"])

/-- Drill strings of `analyseUtility`, same branch structure as its issues. -/
def analyseUtilityDrills
    (ffOk foeOk killOk durOk thrownOk heOk tradeOk deathOk : Bool) : List String :=
  (if ffOk then [] else
    ["Learn \"pop flashes\" — these curve around corners and only blind enemies facing the angle",
     "Never throw a flash without knowing where your teammates are"]) ++
  (if foeOk then [] else
    ["Learn 2-3 flash lineups per site on your most played map — random flashes do nothing",
     "Flash BEFORE peeking, not at the same time — give the blind time to land first"]) ++
  (if killOk then [] else
    ["Coordinate flashes with a teammate — one flashes, one peeks immediately after",
     "Self-flash into site more on T-side rather than expecting someone else to flash for you"]) ++
  (if foeOk && !durOk then
    ["Switch from high-arc flashes to pop flashes — they give enemies less time to turn away"]
   else if !durOk then
    ["Learn pop flashes that detonate around corners with no time to react"]
   else []) ++
  (if thrownOk then [] else
    ["Buy flashes every round — they are the best utility in CS2 at $200. Two flashes > one HE in most situations"]) ++
  (if heOk then [] else
    ["Learn 1-2 HE lineups per map — throwing HEs randomly is mostly a waste of money",
     "HEs work best on clustered enemies — save them for known spots (B apartments, etc)"]) ++
  (if tradeOk then [] else
    ["When a teammate gets killed, immediately check the angle they died from — that\x27s your trade",
     "Don\x27t panic spray from far away when trading — get closer or use a different angle"]) ++
  (if deathOk then [] else
    ["Throw your nades earlier — if you have a smoke, throw it before the fight, not during",
     "Don\x27t save utility for \"the right moment\", that moment often doesn\x27t come"])

/-- Resource tags of `analyseUtility`, same branch structure as its issues. -/
def analyseUtilityTags
    (ffOk foeOk killOk durOk thrownOk heOk tradeOk deathOk : Bool) : List String :=
  (if ffOk then [] else ["pop_flashes"]) ++
  (if foeOk then [] else ["pop_flashes", "flash_timing"]) ++
  (if killOk then [] else ["flash_timing"]) ++
  (if foeOk && !durOk then ["pop_flashes"]
   else if !durOk then ["pop_flashes"] else []) ++
  (if thrownOk then [] else ["flash_buying"]) ++
  (if heOk then [] else ["he_grenades"]) ++
  (if tradeOk then [] else ["trade_positioning"]) ++
  (if deathOk then [] else ["utility_timing"])

/-- `analyseUtility(stats, rating, benchmarkTier)`. -/
def analyseUtility (stats : Stats) (rating : ℚ) (benchmarkTier : BenchmarkTier) :
    ImprovementArea :=
  let ffOk := compareAgainstBenchmark stats.flashbang_hit_friend_per_flashbang
    "flashbang_hit_friend_per_flashbang" .profile
  let foeOk := compareAgainstBenchmark stats.flashbang_hit_foe_per_flashbang
    "flashbang_hit_foe_per_flashbang" .profile
  let killOk := compareAgainstBenchmark stats.flashbang_leading_to_kill
    "flashbang_leading_to_kill" .profile
  let durOk := compareAgainstBenchmark stats.flashbang_hit_foe_avg_duration
    "flashbang_hit_foe_avg_duration" .profile
  let thrownOk := compareAgainstBenchmark stats.flashbang_thrown
    "flashbang_thrown" .profile
  let heOk := compareAgainstBenchmark stats.he_foes_damage_avg
    "he_foes_damage_avg" .profile
  let tradeOk := compareAgainstBenchmark stats.trade_kills_success_percentage
    "trade_kills_success_percentage" .profile
  let deathOk := compareAgainstBenchmark stats.utility_on_death_avg
    "utility_on_death_avg" .profile
  let issues := analyseUtilityIssues stats ffOk foeOk killOk durOk thrownOk heOk tradeOk deathOk
  let drills := analyseUtilityDrills ffOk foeOk killOk durOk thrownOk heOk tradeOk deathOk
  let resourceTags := analyseUtilityTags ffOk foeOk killOk durOk thrownOk heOk tradeOk deathOk
  let issues := if issues.isEmpty then
    [utilitySyntheticIssue rating benchmarkTier] else issues
  ⟨"Utility", rating, "💣", issues, drills, resourceTags⟩

/-- The synthetic performing-well issue of `analyseOpening` (note its wording
set is excellent/good/below average/poor, computed against the module-global
`BENCHMARK_DECIMALS.ratings.opening`, not the tier). -/
def openingSyntheticIssue (rating : ℚ) : String :=
  let difference := rating - BENCHMARK_DECIMALS_ratings.opening
  let performance := if 5 ≤ difference then "excellent"
    else if 0 ≤ difference then "good"
    else if -5 ≤ difference then "below average" else "poor"
  "Opening performance is " ++ performance ++ " (" ++ formatLeetifyRating rating ++ ")"

/-- `analyseOpening(stats, rating, weakSide, benchmarkTier)`. -/
def analyseOpening (stats : Stats) (rating : ℚ) (weakSide : Option String)
    (benchmarkTier : BenchmarkTier) : ImprovementArea :=
  let ctSuccessLow := !(compareAgainstBenchmark stats.ct_opening_aggression_success_rate
    "ct_opening_aggression_success_rate" .profile)
  let tSuccessLow := !(compareAgainstBenchmark stats.t_opening_aggression_success_rate
    "t_opening_aggression_success_rate" .profile)
  let ctPct := formatApiValueAsPercentage (some stats.ct_opening_aggression_success_rate)
    "ct_opening_aggression_success_rate" .profile 1
  let tPct := formatApiValueAsPercentage (some stats.t_opening_aggression_success_rate)
    "t_opening_aggression_success_rate" .profile 1
  let lowRatingBranch := !ctSuccessLow && !tSuccessLow &&
    decide (rating < benchmarkTier.ratings.opening) && decide (-10 ≤ rating)
  let issues :=
    (if !ctSuccessLow then [] else
      if weakSide = some "CT" then
        ["CT side is dragging you down — aggression failing at " ++ ctPct]
      else
        ["CT aggression isn\x27t working (" ++ ctPct ++ " success when you push)"]) ++
    (if !tSuccessLow then [] else
      if weakSide = some "T" then
        ["T side is your bottleneck — entry attempts failing at " ++ tPct]
      else
        ["T-side entries are failing (" ++ tPct ++ " success)"]) ++
    (if lowRatingBranch then
      let difference := rating - benchmarkTier.ratings.opening
      let performance := if 5 ≤ difference then "excellent"
        else if 0 ≤ difference then "good"
        else if -5 ≤ difference then "below average" else "poor"
      ["Opening rating is " ++ performance ++ " (" ++ formatLeetifyRating rating ++
        ") but individual duel success is ok — you may be taking too few opening duels"]
     else if rating < -10 then
      ["Opening rating is extremely low (" ++ formatLeetifyRating rating ++
        ") — this may indicate you rarely take opening duels"]
     else [])
  let drills :=
    (if !ctSuccessLow then [] else
      (if weakSide = some "CT" then
        ["Stop pushing on CT entirely until your CT rating improves — hold angles and play for retakes",
         "Master 2-3 defensive positions per site before attempting any aggression"]
      else
        ["On CT, only push aggressively when you have information — random aggression loses rounds"]) ++
      ["Play passive until you hear utility, then rotate with purpose"]) ++
    (if !tSuccessLow then [] else
      (if weakSide = some "T" then
        ["Practice T-side entry routes specifically — pick one map and learn 3 entry executes with utility",
         "Focus on T-side fundamentals: utility timing and team coordination"]
      else
        ["Never dry peek important angles — always use a flash, smoke, or HE to take space"]) ++
      ["Watch pro T-side demos on your map pool and notice how much utility they throw before peeking"]) ++
    (if lowRatingBranch then
      ["Step up as entry fragger more — if you win duels when you peek, peek more often with utility support"]
     else if rating < -10 then
      ["Focus on fundamentals first (aim, positioning, utility) before worrying about entry fragging"]
     else [])
  let resourceTags :=
    (if !ctSuccessLow then [] else ["ct_angles", "ct_positioning"]) ++
    (if !tSuccessLow then [] else ["t_entry", "demo_review", "t_positioning"]) ++
    (if lowRatingBranch then ["entry_fragger"] else [])
  let issues := if issues.isEmpty then [openingSyntheticIssue rating] else issues
  ⟨"Opening Duels", rating, "⚔️", issues, drills, resourceTags⟩

/-- The synthetic performing-well issue of `analyseClutch` (wording set
excellent/good/above average). -/
def clutchSyntheticIssue (rating : ℚ) (benchmarkTier : BenchmarkTier) : String :=
  let difference := rating - benchmarkTier.ratings.clutch
  let performance := if 5 ≤ difference then "excellent"
    else if 0 ≤ difference then "good" else "above average"
  "Clutch performance is " ++ performance ++ " (" ++ formatLeetifyRating rating ++ ")"

/-- `analyseClutch(stats, rating, benchmarkTier)`. -/
def analyseClutch (stats : Stats) (rating : ℚ) (benchmarkTier : BenchmarkTier) :
    ImprovementArea :=
  let ratingDisplay := formatLeetifyRating rating
  let deathOk := compareAgainstBenchmark stats.utility_on_death_avg
    "utility_on_death_avg" .profile
  let issues :=
    (if rating < -10 then
      ["Clutch rating is extremely low (" ++ ratingDisplay ++
        ") — this suggests very few clutch attempts or poor performance"]
     else if rating < -6 then
      ["Clutch rating is very low (" ++ ratingDisplay ++
        ") — losing most 1vX situations badly"]
     else if rating < benchmarkTier.ratings.clutch then
      let difference := rating - benchmarkTier.ratings.clutch
      let performance := if -2 ≤ difference then "slightly below average"
        else if -5 ≤ difference then "below average" else "poor"
      ["Clutch performance is " ++ performance ++ " (" ++ ratingDisplay ++
        ") — room for improvement"]
     else []) ++
    (if deathOk then [] else
      ["Dying with utility in clutch situations wastes potential"])
  let drills :=
    (if rating < -10 then
      ["Focus on staying alive longer and getting into more clutch situations through better positioning"]
     else if rating < -6 then
      ["In clutches, stop and think before moving — map out where enemies could be and make a plan",
       "Use sound — listen for footsteps and utility before peeking, time is usually on your side",
       "1v1 clutch tip: fake a site, listen for rotate, retake original site"]
     else if rating < benchmarkTier.ratings.clutch then
      ["Learn to use the bomb timer — planted bomb forces enemies to commit, buying you time",
       "Practice staying calm in 1vX scenarios — the mental pressure is often the main barrier"]
     else []) ++
    (if deathOk then [] else
      ["In a clutch, throw remaining utility before peeking — a HE or flash costs nothing now"])
  let resourceTags :=
    (if rating < -10 then ["clutch_fundamentals"]
     else if rating < -6 then ["clutch_fundamentals", "1v1_clutch"]
     else if rating < benchmarkTier.ratings.clutch then ["clutch_fundamentals"]
     else []) ++
    (if deathOk then [] else ["clutch_utility"])
  let issues := if issues.isEmpty then
    [clutchSyntheticIssue rating benchmarkTier] else issues
  ⟨"Clutch", rating, "🧠", issues, drills, resourceTags⟩

/-! ## Side balance, cross insights, CT/T deep dive -/

/-- Embedding of the call pattern
`formatApiValueAsPercentage(v, f, 'profile', 1).replace('%', '')`: the
formatted string is the fixed-point number followed by a single percent sign,
so removing it leaves the rendered number. -/
def pctNumberString (v : ℚ) (f : String) : String :=
  ratToFixed (normalizeToDecimal (some v) f .profile * 100) 1

/-- Embedding of the call pattern
`parseFloat(formatApiValueAsPercentage(v, f, 'profile', 1).replace('%', ''))`:
the numeric value of the one-decimal rendering, i.e. the normalised value
scaled to percent and rounded to one decimal place. -/
def parsePct (v : ℚ) (f : String) : ℚ :=
  (jsRound (normalizeToDecimal (some v) f .profile * 100 * 10) : ℚ) / 10

/-- `analyseSideBalance(ctRatingRaw, tRatingRaw, stats)`. -/
def analyseSideBalance (ctRatingRaw tRatingRaw : ℚ) (stats : Stats) : SideBalance :=
  let gap := |ctRatingRaw - tRatingRaw|
  if gap < 1/50 then ⟨false, none, ""⟩
  else
    let strongRating := max ctRatingRaw tRatingRaw
    let weakRating := min ctRatingRaw tRatingRaw
    if ctRatingRaw < tRatingRaw then
      let ctDuelPct := pctNumberString stats.ct_opening_duel_success_percentage
        "ct_opening_duel_success_percentage"
      ⟨true, some "CT",
       "Your CT side is weaker than T side (" ++ formatLeetifyRating (weakRating * 100) ++
       " vs " ++ formatLeetifyRating (strongRating * 100) ++ "). " ++
       "CT opening duel success: " ++ ctDuelPct ++ "%. " ++
       "Focus on holding angles rather than peeking, and use utility to delay pushes."⟩
    else
      let tDuelPct := pctNumberString stats.t_opening_duel_success_percentage
        "t_opening_duel_success_percentage"
      ⟨true, some "T",
       "Your T side is weaker than CT side (" ++ formatLeetifyRating (weakRating * 100) ++
       " vs " ++ formatLeetifyRating (strongRating * 100) ++ "). " ++
       "T opening duel success: " ++ tDuelPct ++ "%. " ++
       "Use more utility before peeking on T side and practice entry routes on your map pool."⟩

/-- The scaled ratings record `buildImprovementReport` passes to the analyzers
and to `detectCrossInsights`. -/
structure ScaledRatings where
  aim : ℚ
  positioning : ℚ
  utility : ℚ
  clutch : ℚ
  opening : ℚ
deriving DecidableEq

/-- `detectCrossInsights(ratings, stats)`. -/
def detectCrossInsights (ratings : ScaledRatings) (stats : Stats) :
    List CrossInsight :=
  (if 55 ≤ ratings.aim ∧ ratings.opening < -2 then
    [⟨"Good aim but poor openings",
      "Your mechanics are fine but you lose opening duels — this usually means bad positioning when taking fights, not bad aim. Peek from off-angles and use utility to isolate 1v1s."⟩]
   else []) ++
  (if 55 ≤ ratings.aim ∧ ratings.clutch < -6 then
    [⟨"Aim is there but clutches fail",
      "You can shoot but struggle in 1vX. Focus on slowing down in clutch situations — check minimap, listen for info, and take fights one at a time instead of rushing."⟩]
   else []) ++
  (if ratings.utility < 40 ∧ 0 ≤ ratings.opening then
    [⟨"Winning fights without utility",
      "You win duels but don\x27t use utility — this works at lower ranks but will plateau. Start using flashes before every peek to make your already-good entries even better."⟩]
   else []) ++
  (if compareAgainstBenchmark stats.he_friends_damage_avg "he_friends_damage_avg" .profile
   then [] else
    [⟨"Friendly fire with HE grenades",
      "You deal " ++ ratToFixed stats.he_friends_damage_avg 1 ++
      " avg HE damage to teammates. Check teammate positions before throwing HEs, especially in close-quarters sites."⟩]) ++
  (if compareAgainstBenchmark stats.trade_kill_opportunities_per_round
      "trade_kill_opportunities_per_round" .profile
   then [] else
    [⟨"Isolated from teammates",
      "You only get " ++ ratToFixed stats.trade_kill_opportunities_per_round 2 ++
      " trade opportunities per round — you\x27re playing too far from teammates. Stay closer so deaths can be traded."⟩])

/-- CT-side insight strings of `analyzeCTTSideWeaknesses` from its first four
CT checks (opening duels, aggression, teamflash, HE friendly fire). -/
def cttCtInsightsChecks (stats : Stats) (ctOpeningPct ctAggressionPct : ℚ)
    (ffOk : Bool) (heBad : Bool) : List String :=
  (if ctOpeningPct < 45 then
    if ctOpeningPct < 25 then
      ["CT opening duels are failing badly (" ++ ratToFixed ctOpeningPct 1 ++
        "%) - you\x27re losing most first contacts",
       "→ This suggests poor CT positioning and angle selection"]
    else
      ["CT opening duels below average (" ++ ratToFixed ctOpeningPct 1 ++
        "%) - work on angle selection"]
   else []) ++
  (if ctAggressionPct < 40 then
    if ctAggressionPct < 20 then
      ["CT aggression is failing severely (" ++ ratToFixed ctAggressionPct 1 ++
        "%) - avoid pushing entirely",
       "→ When you do push as CT, you\x27re getting punished heavily"]
    else
      ["CT pushes aren\x27t working (" ++ ratToFixed ctAggressionPct 1 ++
        "%) - be more selective"]
   else []) ++
  (if ffOk then [] else
    ["Teamflashing too much (" ++
      ratToFixed stats.flashbang_hit_friend_per_flashbang 2 ++ " teammates/flash)",
     "→ Your flashes are hitting teammates more than helping team"]) ++
  (if heBad then
    ["HE grenades hitting teammates more than enemies - poor nade timing",
     "→ HE damage: " ++ ratToFixed stats.he_foes_damage_avg 1 ++ " to enemies, " ++
      ratToFixed stats.he_friends_damage_avg 1 ++ " to teammates"]
   else [])

/-- CT-side drill strings from the same first four CT checks. -/
def cttCtDrillsChecks (ctOpeningPct ctAggressionPct : ℚ)
    (ffOk : Bool) (heBad : Bool) : List String :=
  (if ctOpeningPct < 45 then
    if ctOpeningPct < 25 then
      ["Stop wide peeking common angles - CTs should use tight angles and cover",
       "Practice pre-aiming head level on every common peek (Long, Short, Ramp, etc.)"]
    else
      ["Learn 2-3 off-angles per site that give you advantages over T entries",
       "Hold closer angles and use jiggle peeking to get information safely"]
   else []) ++
  (if ctAggressionPct < 40 then
    if ctAggressionPct < 20 then
      ["Play purely passive - hold sites and rotate for retakes only",
       "Focus on staying alive for rotates rather than seeking opening frags"]
    else
      ["Only push when you have info (teammate spotted enemies elsewhere)",
       "Use utility before pushing - smoke/flash yourself in, don\x27t dry peek"]
   else []) ++
  (if ffOk then [] else
    ["Learn CT pop-flashes that curve around corners - never throw over teammates"]) ++
  (if heBad then
    ["Only throw HEs at confirmed enemy positions, never spam common spots"]
   else [])

/-- CT-side resource tags from the same first four CT checks. -/
def cttCtTagsChecks (ctOpeningPct ctAggressionPct : ℚ)
    (ffOk : Bool) (heBad : Bool) : List String :=
  (if ctOpeningPct < 45 then ["ct_angles", "ct_positioning"] else []) ++
  (if ctAggressionPct < 40 then ["ct_utility", "ct_positioning"] else []) ++
  (if ffOk then [] else ["pop_flashes", "ct_utility"]) ++
  (if heBad then ["he_grenades", "ct_utility"] else [])

/-- CT-side insight strings from the later CT blocks: the low-rating diagnostic
(active only when the first four checks produced nothing), the strong-defense
block, the weak-fundamentals block and the economy block. -/
def cttCtInsightsLater (ctOpeningPct ctAggressionPct ctRatingRaw : ℚ)
    (blockI : Bool) : List String :=
  (if blockI then
    if 37 ≤ ctOpeningPct ∧ 35 ≤ ctAggressionPct then
      let ctTrafficLight := if -2 ≤ ctRatingRaw then "🟢 Average"
        else if -6 ≤ ctRatingRaw then "🟡 Below average"
        else "🔴 Significant improvement needed"
      ["CT side performance: " ++ ctTrafficLight ++ " (" ++
        formatLeetifyRating ctRatingRaw ++ ") despite reasonable individual stats",
       "→ Stats show: CT opening duels " ++ ratToFixed ctOpeningPct 1 ++
        "%, aggression " ++ ratToFixed ctAggressionPct 1 ++ "%",
       "→ Lower rating likely due to: poor round impact, excessive rotations, or dying early in rounds"]
    else if ctRatingRaw < -6 then
      ["CT side performance: 🔴 Significant improvement needed (" ++
        formatLeetifyRating ctRatingRaw ++ ") - major structural issues",
       "→ Stats: CT opening duels " ++ ratToFixed ctOpeningPct 1 ++
        "%, aggression success " ++ ratToFixed ctAggressionPct 1 ++ "%",
       "→ This indicates: severe angle problems, over-aggressive play, or poor utility usage"]
    else
      ["CT side performance: 🟡 Below average (" ++ formatLeetifyRating ctRatingRaw ++
        ") - fundamental CT positioning needs work",
       "→ Stats: CT opening duels " ++ ratToFixed ctOpeningPct 1 ++
        "%, aggression " ++ ratToFixed ctAggressionPct 1 ++ "%"]
   else []) ++
  (if 45 ≤ ctOpeningPct ∧ ctAggressionPct < 30 then
    ["Strong CT defense (" ++ ratToFixed ctOpeningPct 1 ++
      "% duel success) but avoid unnecessary risks",
     "→ Your aggression success is low (" ++ ratToFixed ctAggressionPct 1 ++
      "%) - stick to what\x27s working"]
   else []) ++
  (if ctOpeningPct < 35 then
    ["CT positioning fundamentals need major work - losing most defensive duels (" ++
      ratToFixed ctOpeningPct 1 ++ "%)",
     "→ Common CT mistakes: wide peeking, poor crosshair placement, or fighting at wrong ranges"]
   else []) ++
  (if ctOpeningPct < 40 ∧ 45 < ctAggressionPct then
    ["CT economy optimization needed - aggressive plays (" ++
      ratToFixed ctAggressionPct 1 ++ "% success) may cost crucial rounds",
     "→ On force-buy/eco rounds: play even more passively, preserve utility and positioning"]
   else [])

/-- CT-side drill strings from the later CT blocks (including the drill the
T-side weak-fundamentals block pushes onto the CT list). -/
def cttCtDrillsLater (ctOpeningPct ctAggressionPct tOpeningPct ctRatingRaw : ℚ)
    (blockI : Bool) : List String :=
  (if blockI then
    if 37 ≤ ctOpeningPct ∧ 35 ≤ ctAggressionPct then
      ["Focus on staying alive longer on CT - your job is to delay and gather info, not frag",
       "Play more defensively - hold tight angles and rotate only when certain"]
    else if ctRatingRaw < -6 then
      ["Master basic CT fundamentals: hold standard angles, avoid risky peeks, stay alive",
       "Stop all aggression on CT until basics are fixed - play purely reactive and passive"]
    else
      ["Focus on basic CT holds: play standard angles until you understand site timings",
       "Watch pro demos of your favorite map - see how CTs position on each site"]
   else []) ++
  (if 45 ≤ ctOpeningPct ∧ ctAggressionPct < 30 then
    ["Perfect your defensive holds: learn 3 different angles per site to avoid predictability",
     "Only push when you have clear intel - sound cue, teammate callout, or utility usage"]
   else []) ++
  (if ctOpeningPct < 35 then
    ["Master close angles: play tight corners where rifles beat rifles, not long-range duels",
     "Pre-aim head height at common peek spots - CT side is about preparation, not reaction"]
   else []) ++
  (if tOpeningPct < 35 then
    ["Practice jiggle peeking: gather info before committing to the duel"]
   else []) ++
  (if ctOpeningPct < 40 ∧ 45 < ctAggressionPct then
    ["Adjust aggression based on round type: save aggressive plays for full-buy rounds only",
     "On eco defense: stack sites, play for multi-kills with utility rather than individual duels"]
   else [])

/-- CT-side resource tags from the later CT blocks. -/
def cttCtTagsLater (ctOpeningPct ctAggressionPct : ℚ) (blockI : Bool) : List String :=
  (if blockI then ["ct_positioning", "ct_angles", "ct_fundamentals"] else []) ++
  (if 45 ≤ ctOpeningPct ∧ ctAggressionPct < 30 then ["ct_angles", "shoulder_peeking"] else []) ++
  (if ctOpeningPct < 35 then ["ct_positioning", "crosshair_placement", "ct_angles"] else []) ++
  (if ctOpeningPct < 40 ∧ 45 < ctAggressionPct then ["flash_buying", "ct_fundamentals"] else [])

/-- T-side insight strings from the first four T checks (opening duels,
aggression, flash-to-foe rate, trade conversion). -/
def cttTInsightsChecks (stats : Stats) (tOpeningPct tAggressionPct : ℚ)
    (foeOk tradeOk : Bool) : List String :=
  (if tOpeningPct < 45 then
    if tOpeningPct < 25 then
      ["T opening duels are failing badly (" ++ ratToFixed tOpeningPct 1 ++
        "%) - you\x27re losing most entry attempts",
       "→ This indicates poor T-side positioning and utility usage"]
    else
      ["T opening duels below average (" ++ ratToFixed tOpeningPct 1 ++
        "%) - entries need better setup"]
   else []) ++
  (if tAggressionPct < 45 then
    if tAggressionPct < 25 then
      ["T entries are failing severely (" ++ ratToFixed tAggressionPct 1 ++
        "%) - you\x27re being shut down completely",
       "→ Your T-side aggression attempts are almost always unsuccessful"]
    else
      ["T aggression success is low (" ++ ratToFixed tAggressionPct 1 ++
        "%) - entries need better timing"]
   else []) ++
  (if foeOk then [] else
    ["T-side flashes not hitting enemies (" ++
      ratToFixed stats.flashbang_hit_foe_per_flashbang 2 ++ " enemies/flash)",
     "→ Your T-side flashes are mostly whiffing and not blinding CTs"]) ++
  (if tradeOk then [] else
    ["Not trading teammates effectively (" ++
      formatApiValueAsPercentage (some stats.trade_kills_success_percentage)
        "trade_kills_success_percentage" .profile 1 ++ " trade rate)",
     "→ When teammates die, you\x27re failing to get the revenge frag"])

/-- T-side drill strings from the same first four T checks. -/
def cttTDrillsChecks (tOpeningPct tAggressionPct : ℚ)
    (foeOk tradeOk : Bool) : List String :=
  (if tOpeningPct < 45 then
    if tOpeningPct < 25 then
      ["Never peek without utility - use pop-flashes or smoke executes before every entry",
       "Practice shoulder peeking to get info before committing to full peeks"]
    else
      ["Coordinate with teammates - one person flashes, another peeks immediately",
       "Learn basic T-side executes: A site smoke+flash, B site pop-flash entries"]
   else []) ++
  (if tAggressionPct < 45 then
    if tAggressionPct < 25 then
      ["Focus on utility-heavy executes - never dry peek angles CTs are watching",
       "Practice 5-man executes with team utility rather than solo entries"]
    else
      ["Time your peeks with utility - peek right as your flash pops, not before",
       "Learn to trade your teammates - follow up immediately when someone dies"]
   else []) ++
  (if foeOk then [] else
    ["Learn specific T-side pop-flash lineups for each site entry"]) ++
  (if tradeOk then [] else
    ["Stay closer to your entry fraggers - be ready to peek immediately when they die"])

/-- T-side resource tags from the same first four T checks. -/
def cttTTagsChecks (tOpeningPct tAggressionPct : ℚ)
    (foeOk tradeOk : Bool) : List String :=
  (if tOpeningPct < 45 then ["t_entry", "t_positioning", "pop_flashes"] else []) ++
  (if tAggressionPct < 45 then ["t_entry", "flash_timing", "t_utility"] else []) ++
  (if foeOk then [] else ["pop_flashes", "t_utility"]) ++
  (if tradeOk then [] else ["trade_positioning", "t_positioning"])

/-- T-side insight strings from the later T blocks: low-rating diagnostic,
strong-entry block, weak-fundamentals block and economy block. -/
def cttTInsightsLater (tOpeningPct tAggressionPct tRatingRaw : ℚ)
    (blockL : Bool) : List String :=
  (if blockL then
    if 37 ≤ tOpeningPct ∧ 40 ≤ tAggressionPct then
      let tTrafficLight := if -2 ≤ tRatingRaw then "🟢 Average"
        else if -6 ≤ tRatingRaw then "🟡 Below average"
        else "🔴 Significant improvement needed"
      ["T side performance: " ++ tTrafficLight ++ " (" ++
        formatLeetifyRating tRatingRaw ++ ") despite reasonable individual stats",
       "→ Stats show: opening duels " ++ ratToFixed tOpeningPct 1 ++
        "%, aggression " ++ ratToFixed tAggressionPct 1 ++ "%",
       "→ Lower rating likely due to: poor round conversion, isolated play, or ineffective utility usage"]
    else if tRatingRaw < -6 then
      ["T side performance: 🔴 Significant improvement needed (" ++
        formatLeetifyRating tRatingRaw ++ ") - major fundamental issues",
       "→ Stats: T opening duels " ++ ratToFixed tOpeningPct 1 ++
        "%, aggression success " ++ ratToFixed tAggressionPct 1 ++ "%",
       "→ This indicates: poor entry timing, inadequate utility use, or playing too isolated from team"]
    else
      ["T side performance: 🟡 Below average (" ++ formatLeetifyRating tRatingRaw ++
        ") - entry fundamentals need work",
       "→ Stats: T opening duels " ++ ratToFixed tOpeningPct 1 ++
        "%, aggression success " ++ ratToFixed tAggressionPct 1 ++ "%"]
   else []) ++
  (if 45 ≤ tOpeningPct ∧ 45 ≤ tAggressionPct then
    ["Strong T-side entry skills (" ++ ratToFixed tOpeningPct 1 ++
      "% opening duels, " ++ ratToFixed tAggressionPct 1 ++ "% aggression)",
     "→ Your mechanics are solid - focus on converting these advantages into round wins"]
   else []) ++
  (if tOpeningPct < 35 then
    ["T-side entry fundamentals need major improvement - struggling in opening duels (" ++
      ratToFixed tOpeningPct 1 ++ "%)",
     "→ Common entry mistakes: dry peeking, poor timing, or fighting at CT\x27s preferred angles"]
   else []) ++
  (if tOpeningPct < 40 ∧ tAggressionPct < 35 then
    ["T-side execution needs economic awareness - both opening (" ++
      ratToFixed tOpeningPct 1 ++ "%) and entries (" ++
      ratToFixed tAggressionPct 1 ++ "%) are weak",
     "→ On eco rounds: coordinate team rushes, avoid isolated 1v1s that give CTs easy trades"]
   else [])

/-- T-side drill strings from the later T blocks. -/
def cttTDrillsLater (tOpeningPct tAggressionPct tRatingRaw : ℚ)
    (blockL : Bool) : List String :=
  (if blockL then
    if 37 ≤ tOpeningPct ∧ 40 ≤ tAggressionPct then
      ["Focus on team coordination - your entries need to lead to round wins, not just frags",
       "Work on post-entry follow-up: after getting an opening kill, help team convert the advantage"]
    else if tRatingRaw < -6 then
      ["Never peek without utility support - buy flashes/smokes every round and use them first",
       "Stick with your team - coordinate site executes instead of going for solo plays"]
    else
      ["Learn basic T-side utility: buy flashes every round and use them before peeking",
       "Practice coordinated site takes - never go in alone without team support"]
   else []) ++
  (if 45 ≤ tOpeningPct ∧ 45 ≤ tAggressionPct then
    ["Work on post-entry positioning: after getting opening kill, help team trade and execute",
     "Learn to IGL your team after successful entries - call rotates and site executes"]
   else []) ++
  (if tOpeningPct < 35 then
    ["Never take opening duels without utility - buy flash/smoke every round, use before peeking",
     "Learn off-angle entries: peek from unexpected positions to catch CTs off-guard"]
   else []) ++
  (if tOpeningPct < 40 ∧ tAggressionPct < 35 then
    ["Learn eco round tactics: 5-man rushes with coordinated utility to overwhelm sites",
     "On force-buy rounds: play for picks with upgraded pistols, avoid committing to site executes"]
   else [])

/-- T-side resource tags from the later T blocks. -/
def cttTTagsLater (tOpeningPct tAggressionPct : ℚ) (blockL : Bool) : List String :=
  (if blockL then ["t_positioning", "t_utility", "demo_review", "t_fundamentals"] else []) ++
  (if 45 ≤ tOpeningPct ∧ 45 ≤ tAggressionPct then ["communication", "entry_fragger", "demo_review"] else []) ++
  (if tOpeningPct < 35 then ["t_entry", "pop_flashes", "shoulder_peeking", "t_utility"] else []) ++
  (if tOpeningPct < 40 ∧ tAggressionPct < 35 then ["flash_buying", "communication", "t_fundamentals"] else [])

/-- `analyzeCTTSideWeaknesses(stats, ctRatingRaw, tRatingRaw)`. The source
pushes onto six mutable arrays across sixteen threshold blocks; here each
output list is the concatenation of those blocks' contributions in the source's
execution order. The two "stats look fine but the rating is low" diagnostics
fire exactly when the insight list accumulated before them is empty, as in the
source. -/
def analyzeCTTSideWeaknesses (stats : Stats) (ctRatingRaw tRatingRaw : ℚ) :
    SideSpecificInsights :=
  let ctOpeningPct := parsePct stats.ct_opening_duel_success_percentage
    "ct_opening_duel_success_percentage"
  let ctAggressionPct := parsePct stats.ct_opening_aggression_success_rate
    "ct_opening_aggression_success_rate"
  let tOpeningPct := parsePct stats.t_opening_duel_success_percentage
    "t_opening_duel_success_percentage"
  let tAggressionPct := parsePct stats.t_opening_aggression_success_rate
    "t_opening_aggression_success_rate"
  let ffOk := compareAgainstBenchmark stats.flashbang_hit_friend_per_flashbang
    "flashbang_hit_friend_per_flashbang" .profile
  let foeOk := compareAgainstBenchmark stats.flashbang_hit_foe_per_flashbang
    "flashbang_hit_foe_per_flashbang" .profile
  let tradeOk := compareAgainstBenchmark stats.trade_kills_success_percentage
    "trade_kills_success_percentage" .profile
  let heBad := decide (stats.he_foes_damage_avg < 15 ∧ 3 < stats.he_friends_damage_avg)
  let ctInsChecks := cttCtInsightsChecks stats ctOpeningPct ctAggressionPct ffOk heBad
  let tInsChecks := cttTInsightsChecks stats tOpeningPct tAggressionPct foeOk tradeOk
  let blockI := ctInsChecks.isEmpty && decide (ctRatingRaw < -2)
  let blockL := tInsChecks.isEmpty && decide (tRatingRaw < -2)
  ⟨ctInsChecks ++ cttCtInsightsLater ctOpeningPct ctAggressionPct ctRatingRaw blockI,
   tInsChecks ++ cttTInsightsLater tOpeningPct tAggressionPct tRatingRaw blockL,
   cttCtDrillsChecks ctOpeningPct ctAggressionPct ffOk heBad ++
     cttCtDrillsLater ctOpeningPct ctAggressionPct tOpeningPct ctRatingRaw blockI,
   cttTDrillsChecks tOpeningPct tAggressionPct foeOk tradeOk ++
     cttTDrillsLater tOpeningPct tAggressionPct tRatingRaw blockL,
   cttCtTagsChecks ctOpeningPct ctAggressionPct ffOk heBad ++
     cttCtTagsLater ctOpeningPct ctAggressionPct blockI,
   cttTTagsChecks tOpeningPct tAggressionPct foeOk tradeOk ++
     cttTTagsLater tOpeningPct tAggressionPct blockL⟩

/-! ## Report assembler (buildImprovementReport) -/

/-- The local `to100` helper of `buildImprovementReport`:
`Math.round(v > 1 ? v : v * 100)`. -/
def to100 (v : ℚ) : ℚ := (jsRound (if 1 < v then v else v * 100) : ℚ)

/-- The mixed-scale ratings record `buildImprovementReport` derives from the
profile (the source's `|| 0` guards are identities on present numeric fields,
which the embedding assumes — see `RawLeetifyProfile`). -/
def scaledRatingsOf (p : RawLeetifyProfile) : ScaledRatings :=
  ⟨to100 p.rating.aim, to100 p.rating.positioning, to100 p.rating.utility,
   p.rating.clutch * 100, p.rating.opening * 100⟩

/-- Modelled from the spec: `getBenchmarkTier` is imported by the analysis
engine and the embed layer from the dataFormatter module, but no revision of
that module in the repository defines it. Per the spec (§3 `BenchmarkTier`,
§9 tier selection) a skill rank selects one bracket from a small
threshold-ordered set (sentinel thresholds 5000/10000/15000, greatest
threshold at or below the rank, a default bracket when the rank is absent),
each bracket carrying full ratings and stats reference tables. The repository
records reference data for exactly one bracket — `BENCHMARK_DECIMALS`,
documented in the source as the Premier 15k–19k averages — so this model
returns that table for every bracket; claims settled against the model use
premier ranks inside the 15k–19k bracket, where the data is the repository's
own. -/
def getBenchmarkTier (premier : Option ℚ) : BenchmarkTier :=
  match premier with
  | some _ => ⟨BENCHMARK_DECIMALS_ratings, BENCHMARK_DECIMALS_stats⟩
  | none => ⟨BENCHMARK_DECIMALS_ratings, BENCHMARK_DECIMALS_stats⟩

/-- The side-balance verdict `buildImprovementReport` computes from the raw
side ratings. -/
def sideBalanceOf (p : RawLeetifyProfile) : SideBalance :=
  analyseSideBalance p.rating.ct_leetify p.rating.t_leetify p.stats

/-- The five `ImprovementArea`s in construction order (Aim, Positioning,
Utility, Opening Duels, Clutch). -/
def areasOf (p : RawLeetifyProfile) : List ImprovementArea :=
  let benchmarkTier := getBenchmarkTier (p.ranks.bind Ranks.premier)
  let ratings := scaledRatingsOf p
  let sideBalance := sideBalanceOf p
  [analyseAim p.stats ratings.aim benchmarkTier,
   analysePositioning p.stats ratings.positioning sideBalance.weakSide benchmarkTier,
   analyseUtility p.stats ratings.utility benchmarkTier,
   analyseOpening p.stats ratings.opening sideBalance.weakSide benchmarkTier,
   analyseClutch p.stats ratings.clutch benchmarkTier]

/-- The comparison key of `areas.sort((a, b) => a.rating - b.rating)`. -/
def areaLE (a b : ImprovementArea) : Prop := a.rating ≤ b.rating

instance : DecidableRel areaLE := fun a b =>
  inferInstanceAs (Decidable (a.rating ≤ b.rating))

/-- The areas after `areas.sort((a, b) => a.rating - b.rating)`. JavaScript
`Array.prototype.sort` is a stable ascending sort on the comparator key, and
every stable sort on the same key yields the same list, so the embedding uses
insertion sort. -/
def sortedAreasOf (p : RawLeetifyProfile) : List ImprovementArea :=
  (areasOf p).insertionSort areaLE

/-- The predicate of the assembler's step 1 (`criticalAreas` filter): critical
rating on the area's scale, a nonempty issue list, and a first issue containing
neither `solid` nor `good`. -/
def criticalFilter (a : ImprovementArea) : Bool :=
  let isCritical := if a.category = "Clutch" ∨ a.category = "Opening Duels"
    then decide (a.rating < -6) else decide (a.rating < 30)
  match a.issues with
  | [] => false
  | i :: _ => isCritical && !(jsIncludes i "solid") && !(jsIncludes i "good")

/-- Step 1 of focus-area selection: critical areas, capped at 3. -/
def criticalAreasOf (p : RawLeetifyProfile) : List ImprovementArea :=
  ((sortedAreasOf p).filter criticalFilter).take 3

/-- Step 2: force-include Positioning on a side imbalance when room remains. -/
def focusStep2Of (p : RawLeetifyProfile) : List ImprovementArea :=
  let f := criticalAreasOf p
  if (sideBalanceOf p).hasSideImbalance ∧ f.length < 3 then
    match (sortedAreasOf p).find? (fun a => decide (a.category = "Positioning")) with
    | some positioningArea =>
      if positioningArea ∈ f then f else f ++ [positioningArea]
    | none => f
  else f

/-- The predicate of step 3 (`remainingAreas` filter). -/
def fillFilter (f : List ImprovementArea) (a : ImprovementArea) : Bool :=
  decide (a ∉ f) && decide (a.rating < 65) &&
  match a.issues with
  | [] => false
  | i :: _ => !(jsIncludes i "solid") && !(jsIncludes i "good")

/-- Step 3: fill remaining slots with the next worst areas. -/
def focusStep3Of (p : RawLeetifyProfile) : List ImprovementArea :=
  let f := focusStep2Of p
  if f.length < 3 then
    f ++ ((sortedAreasOf p).filter (fillFilter f)).take (3 - f.length)
  else f

/-- The final focus-area list: step 3 plus the two empty-list fallbacks
(`areas.slice(0, 3)`, then `areas[0]`). -/
def focusAreasOf (p : RawLeetifyProfile) : List ImprovementArea :=
  let f := focusStep3Of p
  let f := if f.length = 0 then f ++ (sortedAreasOf p).take 3 else f
  if f.length = 0 then f ++ (sortedAreasOf p).take 1 else f

/-- `buildImprovementReport(rawProfile)`. -/
def buildImprovementReport (p : RawLeetifyProfile) : ImprovementReport :=
  ⟨sortedAreasOf p, focusAreasOf p, p.name, sideBalanceOf p,
   detectCrossInsights (scaledRatingsOf p) p.stats,
   analyzeCTTSideWeaknesses p.stats p.rating.ct_leetify p.rating.t_leetify⟩

/-! ## Helper lemmas -/

lemma jsIncludes_append_left {s pat : String} (t : String)
    (h : jsIncludes s pat = true) : jsIncludes (s ++ t) pat = true := by
  simp only [jsIncludes, decide_eq_true_eq, String.data_append] at h ⊢
  exact h.trans (List.prefix_append s.data t.data).isInfix

lemma jsIncludes_append_right {t pat : String} (s : String)
    (h : jsIncludes t pat = true) : jsIncludes (s ++ t) pat = true := by
  simp only [jsIncludes, decide_eq_true_eq, String.data_append] at h ⊢
  exact h.trans (List.suffix_append s.data t.data).isInfix

lemma getBenchmarkTier_eq (prem : Option ℚ) :
    getBenchmarkTier prem = ⟨BENCHMARK_DECIMALS_ratings, BENCHMARK_DECIMALS_stats⟩ := by
  cases prem <;> rfl

lemma not_mem_criticalAreasOf {a : ImprovementArea} (p : RawLeetifyProfile)
    (h : criticalFilter a = false) : a ∉ criticalAreasOf p := by
  intro hm
  have hmem := (List.mem_filter.mp (List.mem_of_mem_take hm)).2
  rw [h] at hmem
  exact Bool.false_ne_true hmem

/-! ## All-checks-pass characterisations of the analyzers -/

/-- All checklist entries of `analyseAim` pass. -/
def aimChecksPass (stats : Stats) : Prop :=
  compareAgainstBenchmark stats.accuracy_enemy_spotted "accuracy_enemy_spotted" .profile = true ∧
  compareAgainstBenchmark stats.accuracy_head "accuracy_head" .profile = true ∧
  compareAgainstBenchmark stats.counter_strafing_good_shots "counter_strafing_good_shots_ratio" .profile = true ∧
  compareAgainstBenchmark stats.spray_accuracy "spray_accuracy" .profile = true ∧
  compareAgainstBenchmark stats.preaim "preaim" .profile = true ∧
  compareAgainstBenchmark stats.reaction_time_ms "reaction_time_ms" .profile = true

/-- All checklist entries of `analysePositioning` pass. -/
def positioningChecksPass (stats : Stats) : Prop :=
  compareAgainstBenchmark stats.ct_opening_duel_success_percentage "ct_opening_duel_success_percentage" .profile = true ∧
  compareAgainstBenchmark stats.t_opening_duel_success_percentage "t_opening_duel_success_percentage" .profile = true ∧
  compareAgainstBenchmark stats.traded_deaths_success_percentage "traded_deaths_success_percentage" .profile = true

/-- All checklist entries of `analyseUtility` pass. -/
def utilityChecksPass (stats : Stats) : Prop :=
  compareAgainstBenchmark stats.flashbang_hit_friend_per_flashbang "flashbang_hit_friend_per_flashbang" .profile = true ∧
  compareAgainstBenchmark stats.flashbang_hit_foe_per_flashbang "flashbang_hit_foe_per_flashbang" .profile = true ∧
  compareAgainstBenchmark stats.flashbang_leading_to_kill "flashbang_leading_to_kill" .profile = true ∧
  compareAgainstBenchmark stats.flashbang_hit_foe_avg_duration "flashbang_hit_foe_avg_duration" .profile = true ∧
  compareAgainstBenchmark stats.flashbang_thrown "flashbang_thrown" .profile = true ∧
  compareAgainstBenchmark stats.he_foes_damage_avg "he_foes_damage_avg" .profile = true ∧
  compareAgainstBenchmark stats.trade_kills_success_percentage "trade_kills_success_percentage" .profile = true ∧
  compareAgainstBenchmark stats.utility_on_death_avg "utility_on_death_avg" .profile = true

/-- All checklist entries of `analyseOpening` pass and its rating branches stay
silent (exactly the condition under which its issue list is empty before the
synthetic push). -/
def openingChecksPass (stats : Stats) (rating : ℚ) (benchmarkTier : BenchmarkTier) : Prop :=
  compareAgainstBenchmark stats.ct_opening_aggression_success_rate "ct_opening_aggression_success_rate" .profile = true ∧
  compareAgainstBenchmark stats.t_opening_aggression_success_rate "t_opening_aggression_success_rate" .profile = true ∧
  benchmarkTier.ratings.opening ≤ rating ∧ -10 ≤ rating

/-- All checklist entries of `analyseClutch` pass and its rating branches stay
silent. -/
def clutchChecksPass (stats : Stats) (rating : ℚ) (benchmarkTier : BenchmarkTier) : Prop :=
  compareAgainstBenchmark stats.utility_on_death_avg "utility_on_death_avg" .profile = true ∧
  benchmarkTier.ratings.clutch ≤ rating ∧ -6 ≤ rating

lemma analyseAim_allPass {stats : Stats} (rating : ℚ) (tier : BenchmarkTier)
    (h : aimChecksPass stats) :
    analyseAim stats rating tier =
      ⟨"Aim", rating, "🎯", [aimSyntheticIssue rating tier], [], []⟩ := by
  obtain ⟨h1, h2, h3, h4, h5, h6⟩ := h
  simp [analyseAim, h1, h2, h3, h4, h5, h6]

lemma analysePositioning_allPass {stats : Stats} (rating : ℚ) (w : Option String)
    (tier : BenchmarkTier) (h : positioningChecksPass stats) :
    analysePositioning stats rating w tier =
      ⟨"Positioning", rating, "🗺️", [positioningSyntheticIssue rating tier], [], []⟩ := by
  obtain ⟨h1, h2, h3⟩ := h
  simp [analysePositioning, h1, h2, h3]

lemma analyseUtility_allPass {stats : Stats} (rating : ℚ) (tier : BenchmarkTier)
    (h : utilityChecksPass stats) :
    analyseUtility stats rating tier =
      ⟨"Utility", rating, "💣", [utilitySyntheticIssue rating tier], [], []⟩ := by
  obtain ⟨h1, h2, h3, h4, h5, h6, h7, h8⟩ := h
  simp [analyseUtility, analyseUtilityIssues, analyseUtilityDrills, analyseUtilityTags,
    h1, h2, h3, h4, h5, h6, h7, h8]

lemma analyseOpening_allPass {stats : Stats} {rating : ℚ} (w : Option String)
    {tier : BenchmarkTier} (h : openingChecksPass stats rating tier) :
    analyseOpening stats rating w tier =
      ⟨"Opening Duels", rating, "⚔️", [openingSyntheticIssue rating], [], []⟩ := by
  obtain ⟨h1, h2, h3, h4⟩ := h
  simp [analyseOpening, h1, h2, not_lt.mpr h3, not_lt.mpr h4]

lemma analyseClutch_allPass {stats : Stats} {rating : ℚ}
    {tier : BenchmarkTier} (h : clutchChecksPass stats rating tier) :
    analyseClutch stats rating tier =
      ⟨"Clutch", rating, "🧠", [clutchSyntheticIssue rating tier], [], []⟩ := by
  obtain ⟨h1, h2, h3⟩ := h
  have h4 : ¬ (rating < -10) := by linarith
  simp [analyseClutch, h1, not_lt.mpr h2, not_lt.mpr h3, h4]

/-! ## The synthetic issue against the assembler's substring filters -/

lemma criticalFilter_aim_false (stats : Stats) (rating : ℚ) (prem : Option ℚ)
    (h : aimChecksPass stats) :
    criticalFilter (analyseAim stats rating (getBenchmarkTier prem)) = false := by
  rw [analyseAim_allPass rating _ h, getBenchmarkTier_eq]
  by_cases h30 : rating < 30
  · have hs1 : ¬ ((15 : ℚ) ≤ rating - 66) := by linarith
    have hs2 : ¬ ((5 : ℚ) ≤ rating - 66) := by linarith
    have hsolid : jsIncludes (aimSyntheticIssue rating
        ⟨BENCHMARK_DECIMALS_ratings, BENCHMARK_DECIMALS_stats⟩) "solid" = true := by
      show jsIncludes ("Aim fundamentals are " ++
        (if (15 : ℚ) ≤ rating - 66 then "excellent"
         else if (5 : ℚ) ≤ rating - 66 then "good" else "solid") ++
        " (" ++ jsNumStr rating ++ "/100)") "solid" = true
      rw [if_neg hs1, if_neg hs2]
      exact jsIncludes_append_left _ (jsIncludes_append_left _
        (jsIncludes_append_left _ (jsIncludes_append_right _ (by decide))))
    simp [criticalFilter, hsolid]
  · simp [criticalFilter, h30]

lemma criticalFilter_positioning_false (stats : Stats) (rating : ℚ)
    (w : Option String) (prem : Option ℚ) (h : positioningChecksPass stats) :
    criticalFilter (analysePositioning stats rating w (getBenchmarkTier prem)) = false := by
  rw [analysePositioning_allPass rating w _ h, getBenchmarkTier_eq]
  by_cases h30 : rating < 30
  · have hs1 : ¬ ((15 : ℚ) ≤ rating - 53) := by linarith
    have hs2 : ¬ ((5 : ℚ) ≤ rating - 53) := by linarith
    have hsolid : jsIncludes (positioningSyntheticIssue rating
        ⟨BENCHMARK_DECIMALS_ratings, BENCHMARK_DECIMALS_stats⟩) "solid" = true := by
      show jsIncludes ("Positioning is " ++
        (if (15 : ℚ) ≤ rating - 53 then "excellent"
         else if (5 : ℚ) ≤ rating - 53 then "good" else "solid") ++
        " (" ++ jsNumStr rating ++ "/100)") "solid" = true
      rw [if_neg hs1, if_neg hs2]
      exact jsIncludes_append_left _ (jsIncludes_append_left _
        (jsIncludes_append_left _ (jsIncludes_append_right _ (by decide))))
    simp [criticalFilter, hsolid]
  · simp [criticalFilter, h30]

lemma criticalFilter_utility_false (stats : Stats) (rating : ℚ) (prem : Option ℚ)
    (h : utilityChecksPass stats) :
    criticalFilter (analyseUtility stats rating (getBenchmarkTier prem)) = false := by
  rw [analyseUtility_allPass rating _ h, getBenchmarkTier_eq]
  by_cases h30 : rating < 30
  · have hs1 : ¬ ((15 : ℚ) ≤ rating - 58) := by linarith
    have hs2 : ¬ ((5 : ℚ) ≤ rating - 58) := by linarith
    have hsolid : jsIncludes (utilitySyntheticIssue rating
        ⟨BENCHMARK_DECIMALS_ratings, BENCHMARK_DECIMALS_stats⟩) "solid" = true := by
      show jsIncludes ("Utility usage is " ++
        (if (15 : ℚ) ≤ rating - 58 then "excellent"
         else if (5 : ℚ) ≤ rating - 58 then "good" else "solid") ++
        " (" ++ jsNumStr rating ++ "/100)") "solid" = true
      rw [if_neg hs1, if_neg hs2]
      exact jsIncludes_append_left _ (jsIncludes_append_left _
        (jsIncludes_append_left _ (jsIncludes_append_right _ (by decide))))
    simp [criticalFilter, hsolid]
  · simp [criticalFilter, h30]

lemma criticalFilter_opening_false (stats : Stats) (rating : ℚ)
    (w : Option String) (prem : Option ℚ)
    (h : openingChecksPass stats rating (getBenchmarkTier prem)) :
    criticalFilter (analyseOpening stats rating w (getBenchmarkTier prem)) = false := by
  have hb : (getBenchmarkTier prem).ratings.opening = 1/100 := by
    rw [getBenchmarkTier_eq]
    rfl
  have hr : (1:ℚ)/100 ≤ rating := hb ▸ h.2.2.1
  rw [analyseOpening_allPass w h]
  have : ¬ (rating < -6) := by linarith
  simp [criticalFilter, this]

lemma criticalFilter_clutch_false (stats : Stats) (rating : ℚ) (prem : Option ℚ)
    (h : clutchChecksPass stats rating (getBenchmarkTier prem)) :
    criticalFilter (analyseClutch stats rating (getBenchmarkTier prem)) = false := by
  have := h.2.2
  rw [analyseClutch_allPass h]
  have hn : ¬ (rating < -6) := by linarith
  simp [criticalFilter, hn]

lemma fillFilter_aim_false (stats : Stats) (rating : ℚ) (prem : Option ℚ)
    (f : List ImprovementArea) (h : aimChecksPass stats) (hr : rating < 81) :
    fillFilter f (analyseAim stats rating (getBenchmarkTier prem)) = false := by
  rw [analyseAim_allPass rating _ h, getBenchmarkTier_eq]
  have hs1 : ¬ ((15 : ℚ) ≤ rating - 66) := by linarith
  by_cases h5 : (5 : ℚ) ≤ rating - 66
  · have hgood : jsIncludes (aimSyntheticIssue rating
        ⟨BENCHMARK_DECIMALS_ratings, BENCHMARK_DECIMALS_stats⟩) "good" = true := by
      show jsIncludes ("Aim fundamentals are " ++
        (if (15 : ℚ) ≤ rating - 66 then "excellent"
         else if (5 : ℚ) ≤ rating - 66 then "good" else "solid") ++
        " (" ++ jsNumStr rating ++ "/100)") "good" = true
      rw [if_neg hs1, if_pos h5]
      exact jsIncludes_append_left _ (jsIncludes_append_left _
        (jsIncludes_append_left _ (jsIncludes_append_right _ (by decide))))
    simp [fillFilter, hgood]
  · have hsolid : jsIncludes (aimSyntheticIssue rating
        ⟨BENCHMARK_DECIMALS_ratings, BENCHMARK_DECIMALS_stats⟩) "solid" = true := by
      show jsIncludes ("Aim fundamentals are " ++
        (if (15 : ℚ) ≤ rating - 66 then "excellent"
         else if (5 : ℚ) ≤ rating - 66 then "good" else "solid") ++
        " (" ++ jsNumStr rating ++ "/100)") "solid" = true
      rw [if_neg hs1, if_neg h5]
      exact jsIncludes_append_left _ (jsIncludes_append_left _
        (jsIncludes_append_left _ (jsIncludes_append_right _ (by decide))))
    simp [fillFilter, hsolid]

lemma fillFilter_positioning_false (stats : Stats) (rating : ℚ) (w : Option String)
    (prem : Option ℚ) (f : List ImprovementArea)
    (h : positioningChecksPass stats) (hr : rating < 68) :
    fillFilter f (analysePositioning stats rating w (getBenchmarkTier prem)) = false := by
  rw [analysePositioning_allPass rating w _ h, getBenchmarkTier_eq]
  have hs1 : ¬ ((15 : ℚ) ≤ rating - 53) := by linarith
  by_cases h5 : (5 : ℚ) ≤ rating - 53
  · have hgood : jsIncludes (positioningSyntheticIssue rating
        ⟨BENCHMARK_DECIMALS_ratings, BENCHMARK_DECIMALS_stats⟩) "good" = true := by
      show jsIncludes ("Positioning is " ++
        (if (15 : ℚ) ≤ rating - 53 then "excellent"
         else if (5 : ℚ) ≤ rating - 53 then "good" else "solid") ++
        " (" ++ jsNumStr rating ++ "/100)") "good" = true
      rw [if_neg hs1, if_pos h5]
      exact jsIncludes_append_left _ (jsIncludes_append_left _
        (jsIncludes_append_left _ (jsIncludes_append_right _ (by decide))))
    simp [fillFilter, hgood]
  · have hsolid : jsIncludes (positioningSyntheticIssue rating
        ⟨BENCHMARK_DECIMALS_ratings, BENCHMARK_DECIMALS_stats⟩) "solid" = true := by
      show jsIncludes ("Positioning is " ++
        (if (15 : ℚ) ≤ rating - 53 then "excellent"
         else if (5 : ℚ) ≤ rating - 53 then "good" else "solid") ++
        " (" ++ jsNumStr rating ++ "/100)") "solid" = true
      rw [if_neg hs1, if_neg h5]
      exact jsIncludes_append_left _ (jsIncludes_append_left _
        (jsIncludes_append_left _ (jsIncludes_append_right _ (by decide))))
    simp [fillFilter, hsolid]

lemma fillFilter_utility_false (stats : Stats) (rating : ℚ) (prem : Option ℚ)
    (f : List ImprovementArea) (h : utilityChecksPass stats) (hr : rating < 73) :
    fillFilter f (analyseUtility stats rating (getBenchmarkTier prem)) = false := by
  rw [analyseUtility_allPass rating _ h, getBenchmarkTier_eq]
  have hs1 : ¬ ((15 : ℚ) ≤ rating - 58) := by linarith
  by_cases h5 : (5 : ℚ) ≤ rating - 58
  · have hgood : jsIncludes (utilitySyntheticIssue rating
        ⟨BENCHMARK_DECIMALS_ratings, BENCHMARK_DECIMALS_stats⟩) "good" = true := by
      show jsIncludes ("Utility usage is " ++
        (if (15 : ℚ) ≤ rating - 58 then "excellent"
         else if (5 : ℚ) ≤ rating - 58 then "good" else "solid") ++
        " (" ++ jsNumStr rating ++ "/100)") "good" = true
      rw [if_neg hs1, if_pos h5]
      exact jsIncludes_append_left _ (jsIncludes_append_left _
        (jsIncludes_append_left _ (jsIncludes_append_right _ (by decide))))
    simp [fillFilter, hgood]
  · have hsolid : jsIncludes (utilitySyntheticIssue rating
        ⟨BENCHMARK_DECIMALS_ratings, BENCHMARK_DECIMALS_stats⟩) "solid" = true := by
      show jsIncludes ("Utility usage is " ++
        (if (15 : ℚ) ≤ rating - 58 then "excellent"
         else if (5 : ℚ) ≤ rating - 58 then "good" else "solid") ++
        " (" ++ jsNumStr rating ++ "/100)") "solid" = true
      rw [if_neg hs1, if_neg h5]
      exact jsIncludes_append_left _ (jsIncludes_append_left _
        (jsIncludes_append_left _ (jsIncludes_append_right _ (by decide))))
    simp [fillFilter, hsolid]

/-! ## Claim C1 -/

/-- Embedding of the analysis engine's four-argument call sites
`compareAgainstBenchmark(value, field, api, benchmarkTier)`: the source
function declares three parameters, so at runtime the fourth argument is
simply not bound and the comparison reads the module-global table. -/
def compareAgainstBenchmarkCalledWithTier (apiValue : ℚ) (fieldName : String)
    (sourceApi : ApiEndpoint) (_benchmarkTier : BenchmarkTier) : Bool :=
  compareAgainstBenchmark apiValue fieldName sourceApi

/-- Modelled from the spec: the comparator of §4.2, which "looks up the
benchmark for `fieldName` in `tier`" (fail-open when the tier has no entry),
with the code's normalisation and lower-is-better field set. Used only to
exhibit how the spec's tier-sensitive comparator differs from the code. -/
def compareAgainstBenchmarkSpec (apiValue : ℚ) (fieldName : String)
    (sourceApi : ApiEndpoint) (tier : BenchmarkTier) : Bool :=
  match tier.stats fieldName with
  | none => true
  | some benchmark =>
    let normalizedValue := normalizeToDecimal (some apiValue) fieldName sourceApi
    if fieldName ∈ lowerIsBetterFields then decide (normalizedValue ≤ benchmark)
    else decide (benchmark ≤ normalizedValue)

/-- A tier whose `accuracy_enemy_spotted` benchmark is raised to 0.5; every
other entry matches the global table. -/
def tierRaisedAccuracy : BenchmarkTier :=
  ⟨BENCHMARK_DECIMALS_ratings,
   fun f => if f = "accuracy_enemy_spotted" then some (1/2)
     else BENCHMARK_DECIMALS_stats f⟩

/-- The tier whose data is exactly the global table. -/
def tierGlobal : BenchmarkTier := ⟨BENCHMARK_DECIMALS_ratings, BENCHMARK_DECIMALS_stats⟩

/-- C1. The claim says `compareAgainstBenchmark` looks the benchmark up in the
tier passed by the caller, so that two tiers with different benchmark values
for a field can yield different pass/fail results. The code's function has no
tier parameter: the engine's four-argument calls drop the tier, the benchmark
always comes from the global `BENCHMARK_DECIMALS.stats`, and the result is
identical for every pair of tiers — here a raw value of 30 (i.e. 30%) for
`accuracy_enemy_spotted` "meets the benchmark" even under a tier that sets
that benchmark to 0.5, while the spec's tier-lookup comparator distinguishes
the two tiers at that very input. -/
theorem C1_comparator_ignores_tier :
    compareAgainstBenchmarkCalledWithTier 30 "accuracy_enemy_spotted" .profile tierGlobal = true ∧
    compareAgainstBenchmarkCalledWithTier 30 "accuracy_enemy_spotted" .profile tierRaisedAccuracy = true ∧
    (∀ (v : ℚ) (f : String) (api : ApiEndpoint) (t₁ t₂ : BenchmarkTier),
      compareAgainstBenchmarkCalledWithTier v f api t₁ =
        compareAgainstBenchmarkCalledWithTier v f api t₂) ∧
    compareAgainstBenchmarkSpec 30 "accuracy_enemy_spotted" .profile tierGlobal = true ∧
    compareAgainstBenchmarkSpec 30 "accuracy_enemy_spotted" .profile tierRaisedAccuracy = false := by
  refine ⟨by with_unfolding_all decide, by with_unfolding_all decide,
    fun v f api t₁ t₂ => rfl, by with_unfolding_all decide, by with_unfolding_all decide⟩

/-! ## Claim C2 -/

/-- C2 (amended). When every checklist entry of a category passes, the
analyzer emits exactly one synthetic performing-well issue worded by the
rating's distance above the tier benchmark (shown for `analyseAim`, the
claim's cited analyzer). The critical step never selects an area whose only
issue is that synthetic one, and the fill step skips such an area when its
wording is `good` or `solid` — but an `excellent` synthetic wording does not
match the assembler's substring filter, so an all-pass area rated below 65 can
still be selected by the fill step (see the counterexample). -/
theorem C2_synthetic_issue_selection (stats : Stats) (rating : ℚ)
    (w : Option String) (prem : Option ℚ) (p : RawLeetifyProfile) :
    (aimChecksPass stats →
      (analyseAim stats rating (getBenchmarkTier prem)).issues =
        [aimSyntheticIssue rating (getBenchmarkTier prem)] ∧
      analyseAim stats rating (getBenchmarkTier prem) ∉ criticalAreasOf p ∧
      (rating < 81 → ∀ f, fillFilter f (analyseAim stats rating (getBenchmarkTier prem)) = false)) ∧
    (positioningChecksPass stats →
      analysePositioning stats rating w (getBenchmarkTier prem) ∉ criticalAreasOf p ∧
      (rating < 68 → ∀ f, fillFilter f (analysePositioning stats rating w (getBenchmarkTier prem)) = false)) ∧
    (utilityChecksPass stats →
      analyseUtility stats rating (getBenchmarkTier prem) ∉ criticalAreasOf p ∧
      (rating < 73 → ∀ f, fillFilter f (analyseUtility stats rating (getBenchmarkTier prem)) = false)) ∧
    (openingChecksPass stats rating (getBenchmarkTier prem) →
      analyseOpening stats rating w (getBenchmarkTier prem) ∉ criticalAreasOf p) ∧
    (clutchChecksPass stats rating (getBenchmarkTier prem) →
      analyseClutch stats rating (getBenchmarkTier prem) ∉ criticalAreasOf p) := by
  refine ⟨fun h => ⟨?_, ?_, ?_⟩, fun h => ⟨?_, ?_⟩, fun h => ⟨?_, ?_⟩,
    fun h => ?_, fun h => ?_⟩
  · rw [analyseAim_allPass rating _ h]
  · exact not_mem_criticalAreasOf p (criticalFilter_aim_false stats rating prem h)
  · exact fun hr f => fillFilter_aim_false stats rating prem f h hr
  · exact not_mem_criticalAreasOf p (criticalFilter_positioning_false stats rating w prem h)
  · exact fun hr f => fillFilter_positioning_false stats rating w prem f h hr
  · exact not_mem_criticalAreasOf p (criticalFilter_utility_false stats rating prem h)
  · exact fun hr f => fillFilter_utility_false stats rating prem f h hr
  · exact not_mem_criticalAreasOf p (criticalFilter_opening_false stats rating w prem h)
  · exact not_mem_criticalAreasOf p (criticalFilter_clutch_false stats rating prem h)

set_option maxRecDepth 4000

/-- A stats block whose every benchmarked metric passes its check. -/
def sampleStats : Stats :=
  ⟨30, 45, 60, 50, 50, 50, 50, 2, 8/10, 2/10, 20, 2, 25, 2, 6/10, 300, 40, 50, 5/10, 50, 100⟩

/-- A profile in the Premier 15k–19k bracket with every checklist entry
passing, ratings 80/75/70 on the 0–100 areas, clutch +11 and opening +6 on
the relative scale, and balanced sides. -/
def profileC2 : RawLeetifyProfile :=
  ⟨"Tester", some ⟨none, some 16000⟩,
   ⟨80/100, 75/100, 70/100, 11/100, 6/100, 0, 0⟩, sampleStats⟩

/-- Witness for C2: the amended theorem applied to the all-pass stats block at
aim rating 80, discharging its hypotheses by computation. -/
theorem C2_synthetic_issue_selection_witness :
    aimChecksPass sampleStats ∧
    (analyseAim sampleStats 80 (getBenchmarkTier (some 16000))).issues =
      [aimSyntheticIssue 80 (getBenchmarkTier (some 16000))] ∧
    analyseAim sampleStats 80 (getBenchmarkTier (some 16000)) ∉ criticalAreasOf profileC2 := by
  have h : aimChecksPass sampleStats := by
    refine ⟨?_, ?_, ?_, ?_, ?_, ?_⟩ <;> with_unfolding_all decide
  obtain ⟨h1, h2, -⟩ :=
    (C2_synthetic_issue_selection sampleStats 80 none (some 16000) profileC2).1 h
  exact ⟨h, h1, h2⟩

/-- Counterexample for C2 as frozen: on `profileC2` every category passes all
its checks, the critical step and the side-imbalance step select nothing, and
the fill step itself selects the Opening Duels area whose only issue is the
synthetic performing-well string "Opening performance is excellent (+6.00)" —
the `excellent` wording slips through the assembler's `solid`/`good` substring
filter, so an area with no real issue becomes the focus area without the final
fallback being involved. -/
theorem C2_counterexample :
    criticalAreasOf profileC2 = [] ∧
    focusStep2Of profileC2 = [] ∧
    focusAreasOf profileC2 =
      [⟨"Opening Duels", 6, "⚔️", ["Opening performance is excellent (+6.00)"], [], []⟩] ∧
    openingChecksPass sampleStats 6 (getBenchmarkTier (some 16000)) := by
  have cA : analyseAim sampleStats 80 tierGlobal =
      ⟨"Aim", 80, "🎯", ["Aim fundamentals are good (80/100)"], [], []⟩ := by
    have h : aimChecksPass sampleStats := by
      refine ⟨?_, ?_, ?_, ?_, ?_, ?_⟩ <;> with_unfolding_all decide
    rw [analyseAim_allPass 80 _ h,
      show aimSyntheticIssue 80 tierGlobal = "Aim fundamentals are good (80/100)" by
        with_unfolding_all decide]
  have cP : analysePositioning sampleStats 75 none tierGlobal =
      ⟨"Positioning", 75, "🗺️", ["Positioning is excellent (75/100)"], [], []⟩ := by
    have h : positioningChecksPass sampleStats := by
      refine ⟨?_, ?_, ?_⟩ <;> with_unfolding_all decide
    rw [analysePositioning_allPass 75 none _ h,
      show positioningSyntheticIssue 75 tierGlobal = "Positioning is excellent (75/100)" by
        with_unfolding_all decide]
  have cU : analyseUtility sampleStats 70 tierGlobal =
      ⟨"Utility", 70, "💣", ["Utility usage is good (70/100)"], [], []⟩ := by
    have h : utilityChecksPass sampleStats := by
      refine ⟨?_, ?_, ?_, ?_, ?_, ?_, ?_, ?_⟩ <;> with_unfolding_all decide
    rw [analyseUtility_allPass 70 _ h,
      show utilitySyntheticIssue 70 tierGlobal = "Utility usage is good (70/100)" by
        with_unfolding_all decide]
  have hop : openingChecksPass sampleStats 6 tierGlobal := by
    refine ⟨by with_unfolding_all decide, by with_unfolding_all decide, ?_, ?_⟩ <;>
      norm_num [tierGlobal, BENCHMARK_DECIMALS_ratings]
  have cO : analyseOpening sampleStats 6 none tierGlobal =
      ⟨"Opening Duels", 6, "⚔️", ["Opening performance is excellent (+6.00)"], [], []⟩ := by
    rw [analyseOpening_allPass none hop,
      show openingSyntheticIssue 6 = "Opening performance is excellent (+6.00)" by
        with_unfolding_all decide]
  have cC : analyseClutch sampleStats 11 tierGlobal =
      ⟨"Clutch", 11, "🧠", ["Clutch performance is good (+11.00)"], [], []⟩ := by
    have h : clutchChecksPass sampleStats 11 tierGlobal := by
      refine ⟨by with_unfolding_all decide, ?_, ?_⟩ <;>
        norm_num [tierGlobal, BENCHMARK_DECIMALS_ratings]
    rw [analyseClutch_allPass h,
      show clutchSyntheticIssue 11 tierGlobal = "Clutch performance is good (+11.00)" by
        with_unfolding_all decide]
  have hr : scaledRatingsOf profileC2 = ⟨80, 75, 70, 11, 6⟩ := by
    with_unfolding_all decide
  have hsb : sideBalanceOf profileC2 = ⟨false, none, ""⟩ := by
    with_unfolding_all decide
  have ht : getBenchmarkTier (profileC2.ranks.bind Ranks.premier) = tierGlobal := rfl
  have hAreas : areasOf profileC2 =
      [⟨"Aim", 80, "🎯", ["Aim fundamentals are good (80/100)"], [], []⟩,
       ⟨"Positioning", 75, "🗺️", ["Positioning is excellent (75/100)"], [], []⟩,
       ⟨"Utility", 70, "💣", ["Utility usage is good (70/100)"], [], []⟩,
       ⟨"Opening Duels", 6, "⚔️", ["Opening performance is excellent (+6.00)"], [], []⟩,
       ⟨"Clutch", 11, "🧠", ["Clutch performance is good (+11.00)"], [], []⟩] := by
    simp only [areasOf, hr, hsb, ht]
    rw [show profileC2.stats = sampleStats from rfl]
    exact congrArg₂ _ cA (congrArg₂ _ cP (congrArg₂ _ cU (congrArg₂ _ cO
      (congrArg₂ _ cC rfl))))
  have hSorted : sortedAreasOf profileC2 =
      [⟨"Opening Duels", 6, "⚔️", ["Opening performance is excellent (+6.00)"], [], []⟩,
       ⟨"Clutch", 11, "🧠", ["Clutch performance is good (+11.00)"], [], []⟩,
       ⟨"Utility", 70, "💣", ["Utility usage is good (70/100)"], [], []⟩,
       ⟨"Positioning", 75, "🗺️", ["Positioning is excellent (75/100)"], [], []⟩,
       ⟨"Aim", 80, "🎯", ["Aim fundamentals are good (80/100)"], [], []⟩] := by
    rw [sortedAreasOf, hAreas]
    simp only [List.insertionSort, List.orderedInsert]
    norm_num [areaLE]
  have f1 : criticalFilter ⟨"Opening Duels", 6, "⚔️",
      ["Opening performance is excellent (+6.00)"], [], []⟩ = false := by
    with_unfolding_all decide
  have f2 : criticalFilter ⟨"Clutch", 11, "🧠",
      ["Clutch performance is good (+11.00)"], [], []⟩ = false := by
    with_unfolding_all decide
  have f3 : criticalFilter ⟨"Utility", 70, "💣",
      ["Utility usage is good (70/100)"], [], []⟩ = false := by
    with_unfolding_all decide
  have f4 : criticalFilter ⟨"Positioning", 75, "🗺️",
      ["Positioning is excellent (75/100)"], [], []⟩ = false := by
    with_unfolding_all decide
  have f5 : criticalFilter ⟨"Aim", 80, "🎯",
      ["Aim fundamentals are good (80/100)"], [], []⟩ = false := by
    with_unfolding_all decide
  have hCrit : criticalAreasOf profileC2 = [] := by
    rw [criticalAreasOf, hSorted]
    simp [List.filter, f1, f2, f3, f4, f5]
  have hStep2 : focusStep2Of profileC2 = [] := by
    rw [focusStep2Of, hCrit]
    simp [hsb]
  have g1 : fillFilter [] ⟨"Opening Duels", 6, "⚔️",
      ["Opening performance is excellent (+6.00)"], [], []⟩ = true := by
    with_unfolding_all decide
  have g2 : fillFilter [] ⟨"Clutch", 11, "🧠",
      ["Clutch performance is good (+11.00)"], [], []⟩ = false := by
    with_unfolding_all decide
  have g3 : fillFilter [] ⟨"Utility", 70, "💣",
      ["Utility usage is good (70/100)"], [], []⟩ = false := by
    with_unfolding_all decide
  have g4 : fillFilter [] ⟨"Positioning", 75, "🗺️",
      ["Positioning is excellent (75/100)"], [], []⟩ = false := by
    with_unfolding_all decide
  have g5 : fillFilter [] ⟨"Aim", 80, "🎯",
      ["Aim fundamentals are good (80/100)"], [], []⟩ = false := by
    with_unfolding_all decide
  have hStep3 : focusStep3Of profileC2 =
      [⟨"Opening Duels", 6, "⚔️", ["Opening performance is excellent (+6.00)"], [], []⟩] := by
    rw [focusStep3Of, hStep2, hSorted]
    simp [List.filter, g1, g2, g3, g4, g5]
  have hFocus : focusAreasOf profileC2 =
      [⟨"Opening Duels", 6, "⚔️", ["Opening performance is excellent (+6.00)"], [], []⟩] := by
    rw [focusAreasOf, hStep3]
    simp
  have hop16 : openingChecksPass sampleStats 6 (getBenchmarkTier (some 16000)) := by
    rw [getBenchmarkTier_eq]
    exact hop
  exact ⟨hCrit, hStep2, hFocus, hop16⟩

/-! ## Claim C3 -/

lemma length_sortedAreasOf (p : RawLeetifyProfile) : (sortedAreasOf p).length = 5 := by
  simp only [sortedAreasOf, List.length_insertionSort]
  rfl

lemma length_criticalAreasOf_le (p : RawLeetifyProfile) :
    (criticalAreasOf p).length ≤ 3 := by
  simp only [criticalAreasOf]
  exact List.length_take_le _ _

lemma length_focusStep2Of_le (p : RawLeetifyProfile) :
    (focusStep2Of p).length ≤ 3 := by
  have h := length_criticalAreasOf_le p
  simp only [focusStep2Of]
  split
  next hc =>
    split
    next pa hpa =>
      split
      · exact h
      · rw [List.length_append]
        have := hc.2
        simp only [List.length_cons, List.length_nil]
        omega
    next => exact h
  next => exact h

lemma length_focusStep3Of_le (p : RawLeetifyProfile) :
    (focusStep3Of p).length ≤ 3 := by
  have h := length_focusStep2Of_le p
  simp only [focusStep3Of]
  split
  next hlt =>
    rw [List.length_append]
    have := List.length_take_le (3 - (focusStep2Of p).length)
      ((sortedAreasOf p).filter (fillFilter (focusStep2Of p)))
    omega
  next => exact h

/-- C3. For every profile (with rating and stats blocks present, as the
embedding assumes), the report's focus-area list holds between 1 and 3 areas:
each selection step keeps the list at three or fewer, and the empty-list
fallback always fills it from the five sorted areas. -/
theorem C3_focusAreas_length (p : RawLeetifyProfile) :
    1 ≤ (buildImprovementReport p).focusAreas.length ∧
    (buildImprovementReport p).focusAreas.length ≤ 3 := by
  have h3 := length_focusStep3Of_le p
  have h5 := length_sortedAreasOf p
  show 1 ≤ (focusAreasOf p).length ∧ (focusAreasOf p).length ≤ 3
  simp only [focusAreasOf]
  split
  next h0 =>
    split
    next h1 =>
      rw [List.length_append, List.length_take, h5] at h1
      omega
    next h1 =>
      rw [List.length_append, h0, List.length_take, h5]
      omega
  next h0 => omega

/-! ## Claim C10 -/

lemma analyseAim_category (stats : Stats) (rating : ℚ) (tier : BenchmarkTier) :
    (analyseAim stats rating tier).category = "Aim" := rfl

lemma analysePositioning_category (stats : Stats) (rating : ℚ) (w : Option String)
    (tier : BenchmarkTier) :
    (analysePositioning stats rating w tier).category = "Positioning" := by
  simp only [analysePositioning]
  repeat' split
  all_goals rfl

lemma analyseUtility_category (stats : Stats) (rating : ℚ) (tier : BenchmarkTier) :
    (analyseUtility stats rating tier).category = "Utility" := rfl

lemma analyseOpening_category (stats : Stats) (rating : ℚ) (w : Option String)
    (tier : BenchmarkTier) :
    (analyseOpening stats rating w tier).category = "Opening Duels" := rfl

lemma analyseClutch_category (stats : Stats) (rating : ℚ) (tier : BenchmarkTier) :
    (analyseClutch stats rating tier).category = "Clutch" := rfl

lemma areasOf_map_category (p : RawLeetifyProfile) :
    (areasOf p).map (fun a => a.category) =
      ["Aim", "Positioning", "Utility", "Opening Duels", "Clutch"] := by
  simp only [areasOf, List.map_cons, List.map_nil, analyseAim_category,
    analysePositioning_category, analyseUtility_category, analyseOpening_category,
    analyseClutch_category]

lemma areasOf_nodup (p : RawLeetifyProfile) : (areasOf p).Nodup := by
  have h : ((areasOf p).map (fun a => a.category)).Nodup := by
    rw [areasOf_map_category]
    decide
  exact h.of_map

lemma sortedAreasOf_perm (p : RawLeetifyProfile) :
    (sortedAreasOf p).Perm (areasOf p) :=
  List.perm_insertionSort _ _

lemma sortedAreasOf_nodup (p : RawLeetifyProfile) : (sortedAreasOf p).Nodup :=
  (sortedAreasOf_perm p).nodup_iff.mpr (areasOf_nodup p)

lemma criticalAreasOf_sublist (p : RawLeetifyProfile) :
    List.Sublist (criticalAreasOf p) (sortedAreasOf p) :=
  (List.take_sublist _ _).trans (List.filter_sublist _)

lemma focusStep2Of_props (p : RawLeetifyProfile) :
    (focusStep2Of p).Nodup ∧ ∀ a ∈ focusStep2Of p, a ∈ sortedAreasOf p := by
  have hnd : (criticalAreasOf p).Nodup :=
    (sortedAreasOf_nodup p).sublist (criticalAreasOf_sublist p)
  have hsub : ∀ a ∈ criticalAreasOf p, a ∈ sortedAreasOf p :=
    fun a ha => (criticalAreasOf_sublist p).subset ha
  simp only [focusStep2Of]
  split
  next hc =>
    split
    next pa hpa =>
      have hpamem : pa ∈ sortedAreasOf p := List.mem_of_find?_eq_some hpa
      split
      next hin => exact ⟨hnd, hsub⟩
      next hnin =>
        constructor
        · exact List.Nodup.append hnd (List.nodup_singleton pa)
            (by simpa [List.disjoint_singleton] using hnin)
        · intro a ha
          rcases List.mem_append.mp ha with h | h
          · exact hsub a h
          · rw [List.mem_singleton.mp h]; exact hpamem
    next => exact ⟨hnd, hsub⟩
  next => exact ⟨hnd, hsub⟩

lemma focusStep3Of_props (p : RawLeetifyProfile) :
    (focusStep3Of p).Nodup ∧ ∀ a ∈ focusStep3Of p, a ∈ sortedAreasOf p := by
  obtain ⟨hnd, hsub⟩ := focusStep2Of_props p
  simp only [focusStep3Of]
  split
  next hlt =>
    have hfill : ∀ a ∈ ((sortedAreasOf p).filter
        (fillFilter (focusStep2Of p))).take (3 - (focusStep2Of p).length),
        a ∈ sortedAreasOf p ∧ a ∉ focusStep2Of p := by
      intro a ha
      have hmem := List.mem_of_mem_take ha
      have hflt := List.mem_filter.mp hmem
      refine ⟨hflt.1, ?_⟩
      have := hflt.2
      simp only [fillFilter, Bool.and_eq_true, decide_eq_true_eq] at this
      exact this.1.1
    constructor
    · refine List.Nodup.append hnd ?_ ?_
      · exact (sortedAreasOf_nodup p).sublist
          ((List.take_sublist _ _).trans (List.filter_sublist _))
      · intro a ha hb
        exact (hfill a hb).2 ha
    · intro a ha
      rcases List.mem_append.mp ha with h | h
      · exact hsub a h
      · exact (hfill a h).1
  next => exact ⟨hnd, hsub⟩

lemma focusAreasOf_props (p : RawLeetifyProfile) :
    (focusAreasOf p).Nodup ∧ ∀ a ∈ focusAreasOf p, a ∈ sortedAreasOf p := by
  obtain ⟨hnd, hsub⟩ := focusStep3Of_props p
  have htake : ∀ n, ((sortedAreasOf p).take n).Nodup ∧
      ∀ a ∈ (sortedAreasOf p).take n, a ∈ sortedAreasOf p := by
    intro n
    exact ⟨(sortedAreasOf_nodup p).sublist (List.take_sublist _ _),
      fun a ha => List.mem_of_mem_take ha⟩
  simp only [focusAreasOf]
  split
  next h0 =>
    have hempty : focusStep3Of p = [] := List.eq_nil_of_length_eq_zero h0
    rw [hempty]
    simp only [List.nil_append]
    split
    next h1 =>
      constructor
      · refine List.Nodup.append (htake 3).1 (htake 1).1 ?_
        intro a ha hb
        have := List.mem_of_mem_take ha
        rw [List.eq_nil_of_length_eq_zero h1] at ha
        exact (List.not_mem_nil a) ha
      · intro a ha
        rcases List.mem_append.mp ha with h | h
        · exact (htake 3).2 a h
        · exact (htake 1).2 a h
    next => exact htake 3
  next h0 => exact ⟨hnd, hsub⟩

/-- C10. Every report holds exactly five areas, one per category (Aim,
Positioning, Utility, Opening Duels, Clutch — the sorted list is a permutation
of the five freshly built areas), and the focus-area list is a duplicate-free
selection from those five. -/
theorem C10_areas_and_focus_invariants (p : RawLeetifyProfile) :
    (buildImprovementReport p).areas.length = 5 ∧
    ((buildImprovementReport p).areas.map (fun a => a.category)).Perm
      ["Aim", "Positioning", "Utility", "Opening Duels", "Clutch"] ∧
    (∀ a ∈ (buildImprovementReport p).focusAreas,
      a ∈ (buildImprovementReport p).areas) ∧
    (buildImprovementReport p).focusAreas.Nodup := by
  refine ⟨length_sortedAreasOf p, ?_, ?_, (focusAreasOf_props p).1⟩
  · have := (sortedAreasOf_perm p).map (fun a => a.category)
    rw [areasOf_map_category] at this
    exact this
  · exact (focusAreasOf_props p).2

/-! ## Claim C4 -/

/-- C4. For a value that is present (not NaN/null/undefined), every field in
the profile endpoint's percentage list normalises to `v / 100`, and every
field in the match endpoint's percentage list normalises to `v` unchanged:
the divide-by-100 happens only for the profile endpoint. -/
theorem C4_percentage_fields_normalisation (v : ℚ) (f : String) :
    (f ∈ percentage_fields .profile →
      normalizeToDecimal (some v) f .profile = v / 100) ∧
    (f ∈ percentage_fields .matchApi →
      normalizeToDecimal (some v) f .matchApi = v) := by
  constructor
  · intro hf
    simp only [percentage_fields] at hf
    fin_cases hf <;> rfl
  · intro hf
    simp only [percentage_fields] at hf
    fin_cases hf <;> rfl

/-- Witness for C4 at `accuracy_head` (profile) and
`ct_opening_duel_success_percentage` (match). -/
theorem C4_percentage_fields_normalisation_witness :
    ("accuracy_head" ∈ percentage_fields .profile ∧
      normalizeToDecimal (some 40) "accuracy_head" .profile = 40 / 100) ∧
    ("ct_opening_duel_success_percentage" ∈ percentage_fields .matchApi ∧
      normalizeToDecimal (some (37/100)) "ct_opening_duel_success_percentage" .matchApi = 37/100) :=
  ⟨⟨by decide, (C4_percentage_fields_normalisation 40 "accuracy_head").1 (by decide)⟩,
   ⟨by decide,
    (C4_percentage_fields_normalisation (37/100) "ct_opening_duel_success_percentage").2 (by decide)⟩⟩

/-! ## Claim C5 -/

/-- Counterexample for C5 as frozen: `flashbang_hit_friend_per_flashbang` is
lower-is-better in `compareAgainstBenchmark` (0.9 teammates per flash exceeds
the 0.4 benchmark, so the check fails), but `getBenchmarkComparison` omits it
from its inverted set: it reports the same value as meeting the benchmark,
with a positive `percentageAboveBenchmark` of 125 as if more teamflashing
were better. -/
theorem C5_counterexample :
    compareAgainstBenchmark (9/10) "flashbang_hit_friend_per_flashbang" .profile = false ∧
    (getBenchmarkComparison (9/10) "flashbang_hit_friend_per_flashbang" .profile).meetsbenchmark = true ∧
    (getBenchmarkComparison (9/10) "flashbang_hit_friend_per_flashbang" .profile).percentageAboveBenchmark = 125 := by
  refine ⟨?_, ?_, ?_⟩ <;> with_unfolding_all decide

set_option maxHeartbeats 1600000 in
/-- C5 (amended). `compareAgainstBenchmark` treats exactly the four fields
reaction_time_ms, utility_on_death_avg, he_friends_damage_avg and
flashbang_hit_friend_per_flashbang as lower-is-better (and others, such as
accuracy_head, as higher-is-better); `getBenchmarkComparison` inverts only the
first three — it compares flashbang_hit_friend_per_flashbang as
higher-is-better and computes its delta without direction adjustment, so for
that field a positive delta means worse, not better. -/
theorem C5_direction_handling (v : ℚ) :
    compareAgainstBenchmark v "reaction_time_ms" .profile = decide (v ≤ 350) ∧
    compareAgainstBenchmark v "utility_on_death_avg" .profile = decide (v ≤ 200) ∧
    compareAgainstBenchmark v "he_friends_damage_avg" .profile = decide (v ≤ 5) ∧
    compareAgainstBenchmark v "flashbang_hit_friend_per_flashbang" .profile = decide (v ≤ 4/10) ∧
    compareAgainstBenchmark v "accuracy_head" .profile = decide ((40:ℚ)/100 ≤ v / 100) ∧
    (getBenchmarkComparison v "reaction_time_ms" .profile).meetsbenchmark = decide (v ≤ 350) ∧
    (getBenchmarkComparison v "utility_on_death_avg" .profile).meetsbenchmark = decide (v ≤ 200) ∧
    (getBenchmarkComparison v "he_friends_damage_avg" .profile).meetsbenchmark = decide (v ≤ 5) ∧
    (getBenchmarkComparison v "flashbang_hit_friend_per_flashbang" .profile).meetsbenchmark =
      decide ((4:ℚ)/10 ≤ v) ∧
    (getBenchmarkComparison v "he_friends_damage_avg" .profile).percentageAboveBenchmark =
      (jsRound ((5 - v) / 5 * 100 * 10) : ℚ) / 10 ∧
    (getBenchmarkComparison v "flashbang_hit_friend_per_flashbang" .profile).percentageAboveBenchmark =
      (jsRound ((v - 4/10) / (4/10) * 100 * 10) : ℚ) / 10 :=
  ⟨rfl, rfl, rfl, rfl, rfl, rfl, rfl, rfl, rfl, rfl, rfl⟩

/-! ## Claim C6 -/

/-- C6. The side-balance analyzer reports an imbalance exactly when the gap
between the side ratings reaches 0.02, names whichever side is lower as the
weak one (none, with empty advice, otherwise), and in particular reports a CT
weakness for ct = −0.05, t = 0.01. -/
theorem C6_side_imbalance (ct t : ℚ) (stats : Stats) :
    (analyseSideBalance ct t stats).hasSideImbalance = decide ((1:ℚ)/50 ≤ |ct - t|) ∧
    (analyseSideBalance ct t stats).weakSide =
      (if |ct - t| < 1/50 then none else if ct < t then some "CT" else some "T") ∧
    (|ct - t| < 1/50 → (analyseSideBalance ct t stats).advice = "") ∧
    (analyseSideBalance (-1/20) (1/100) stats).hasSideImbalance = true ∧
    (analyseSideBalance (-1/20) (1/100) stats).weakSide = some "CT" := by
  have key : ∀ (a b : ℚ),
      ((analyseSideBalance a b stats).hasSideImbalance = decide ((1:ℚ)/50 ≤ |a - b|)) ∧
      ((analyseSideBalance a b stats).weakSide =
        if |a - b| < 1/50 then none else if a < b then some "CT" else some "T") ∧
      (|a - b| < 1/50 → (analyseSideBalance a b stats).advice = "") := by
    intro a b
    simp only [analyseSideBalance]
    by_cases h : |a - b| < 1/50
    · rw [if_pos h]
      exact ⟨(decide_eq_false (not_le.mpr h)).symm, by rw [if_pos h], fun _ => rfl⟩
    · rw [if_neg h]
      by_cases hlt : a < b
      · rw [if_pos hlt]
        exact ⟨(decide_eq_true (le_of_not_lt h)).symm,
          by rw [if_neg h, if_pos hlt], fun hc => absurd hc h⟩
      · rw [if_neg hlt]
        exact ⟨(decide_eq_true (le_of_not_lt h)).symm,
          by rw [if_neg h, if_neg hlt], fun hc => absurd hc h⟩
  have habs : |(-1/20 : ℚ) - 1/100| = 6/100 := by
    rw [show ((-1/20 : ℚ) - 1/100) = -(6/100) by norm_num, abs_neg, abs_of_nonneg]
    norm_num
  refine ⟨(key ct t).1, (key ct t).2.1, (key ct t).2.2, ?_, ?_⟩
  · rw [(key (-1/20) (1/100)).1, habs]
    norm_num
  · rw [(key (-1/20) (1/100)).2.1, habs, if_neg (by norm_num), if_pos (by norm_num)]

/-- Witness for C6: balanced sides yield empty advice. -/
theorem C6_side_imbalance_witness :
    |(0:ℚ) - 0| < 1/50 ∧ (analyseSideBalance 0 0 sampleStats).advice = "" :=
  ⟨by norm_num, (C6_side_imbalance 0 0 sampleStats).2.2.1 (by norm_num)⟩

/-! ## Claim C7 -/

/-- C7. The comparator fails open: whenever a field has no entry in the
benchmark stats table, `compareAgainstBenchmark` returns true for every value
and endpoint — an absent benchmark is never reported as a failed check. -/
theorem C7_fail_open (v : ℚ) (f : String) (api : ApiEndpoint)
    (h : BENCHMARK_DECIMALS_stats f = none) :
    compareAgainstBenchmark v f api = true := by
  unfold compareAgainstBenchmark
  rw [h]

/-- Witness for C7 at a field absent from the benchmark table. -/
theorem C7_fail_open_witness :
    BENCHMARK_DECIMALS_stats "wins_per_round" = none ∧
    compareAgainstBenchmark 0 "wins_per_round" .profile = true :=
  ⟨rfl, C7_fail_open 0 "wins_per_round" .profile rfl⟩

/-! ## Claim C8 -/

/-- C8. A missing or NaN numeric input (modelled as `none`) normalises to 0
for every field name and endpoint; `normalizeToDecimal` is a total function
into ℚ, so it returns a number on every input and can raise no error. -/
theorem C8_invalid_input_normalises_to_zero (f : String) (api : ApiEndpoint) :
    normalizeToDecimal none f api = 0 := rfl

/-! ## Claim C9 -/

/-- Counterexample for C9 as frozen: `flashbang_hit_foe_per_flashbang` is a
benchmarked higher-is-better metric, yet under the `match` endpoint it is in
neither of that endpoint\x27s field lists, so the normaliser\x27s heuristic
fallback fires: 0.9 stays 0.9 and passes the 0.6 benchmark, while the larger
value 2 is divided by 100 to 0.02 and fails — increasing the value turns a
pass into a fail. -/
theorem C9_counterexample :
    BENCHMARK_DECIMALS_stats "flashbang_hit_foe_per_flashbang" = some (6/10) ∧
    "flashbang_hit_foe_per_flashbang" ∉ lowerIsBetterFields ∧
    (9:ℚ)/10 ≤ 2 ∧
    compareAgainstBenchmark (9/10) "flashbang_hit_foe_per_flashbang" .matchApi = true ∧
    compareAgainstBenchmark 2 "flashbang_hit_foe_per_flashbang" .matchApi = false := by
  refine ⟨rfl, by decide, by norm_num, ?_, ?_⟩ <;> with_unfolding_all decide

set_option maxHeartbeats 4000000 in
/-- C9 (amended). Under the `profile` endpoint — where every benchmarked field
has an explicit normalisation rule and the heuristic fallback never fires —
the pass/fail result of `compareAgainstBenchmark` is monotone in the stat
value: for higher-is-better metrics an increase never turns a pass into a
fail, and for the lower-is-better metrics a decrease never does. (Under the
`match` endpoint this fails; see the counterexample.) -/
theorem C9_profile_monotone (f : String) (b v w : ℚ)
    (hb : BENCHMARK_DECIMALS_stats f = some b) :
    (f ∉ lowerIsBetterFields → v ≤ w →
      compareAgainstBenchmark v f .profile = true →
      compareAgainstBenchmark w f .profile = true) ∧
    (f ∈ lowerIsBetterFields → w ≤ v →
      compareAgainstBenchmark v f .profile = true →
      compareAgainstBenchmark w f .profile = true) := by
  by_cases h1 : f = "accuracy_enemy_spotted"
  · subst h1
    refine ⟨fun _ hle hv => ?_, fun hmem _ _ => absurd hmem (by decide)⟩
    simp [compareAgainstBenchmark, BENCHMARK_DECIMALS_stats, normalizeToDecimal,
      nonPercentageFields, lowerIsBetterFields, decimal_fields, percentage_fields] at hv ⊢
    linarith
  by_cases h2 : f = "counter_strafing_good_shots_ratio"
  · subst h2
    refine ⟨fun _ hle hv => ?_, fun hmem _ _ => absurd hmem (by decide)⟩
    simp [compareAgainstBenchmark, BENCHMARK_DECIMALS_stats, normalizeToDecimal,
      nonPercentageFields, lowerIsBetterFields, decimal_fields, percentage_fields] at hv ⊢
    linarith
  by_cases h3 : f = "ct_opening_duel_success_percentage"
  · subst h3
    refine ⟨fun _ hle hv => ?_, fun hmem _ _ => absurd hmem (by decide)⟩
    simp [compareAgainstBenchmark, BENCHMARK_DECIMALS_stats, normalizeToDecimal,
      nonPercentageFields, lowerIsBetterFields, decimal_fields, percentage_fields] at hv ⊢
    linarith
  by_cases h4 : f = "t_opening_duel_success_percentage"
  · subst h4
    refine ⟨fun _ hle hv => ?_, fun hmem _ _ => absurd hmem (by decide)⟩
    simp [compareAgainstBenchmark, BENCHMARK_DECIMALS_stats, normalizeToDecimal,
      nonPercentageFields, lowerIsBetterFields, decimal_fields, percentage_fields] at hv ⊢
    linarith
  by_cases h5 : f = "ct_opening_aggression_success_rate"
  · subst h5
    refine ⟨fun _ hle hv => ?_, fun hmem _ _ => absurd hmem (by decide)⟩
    simp [compareAgainstBenchmark, BENCHMARK_DECIMALS_stats, normalizeToDecimal,
      nonPercentageFields, lowerIsBetterFields, decimal_fields, percentage_fields] at hv ⊢
    linarith
  by_cases h6 : f = "t_opening_aggression_success_rate"
  · subst h6
    refine ⟨fun _ hle hv => ?_, fun hmem _ _ => absurd hmem (by decide)⟩
    simp [compareAgainstBenchmark, BENCHMARK_DECIMALS_stats, normalizeToDecimal,
      nonPercentageFields, lowerIsBetterFields, decimal_fields, percentage_fields] at hv ⊢
    linarith
  by_cases h7 : f = "flashbang_hit_foe_per_flashbang"
  · subst h7
    refine ⟨fun _ hle hv => ?_, fun hmem _ _ => absurd hmem (by decide)⟩
    simp [compareAgainstBenchmark, BENCHMARK_DECIMALS_stats, normalizeToDecimal,
      nonPercentageFields, lowerIsBetterFields, decimal_fields, percentage_fields] at hv ⊢
    linarith
  by_cases h8 : f = "flashbang_hit_friend_per_flashbang"
  · subst h8
    refine ⟨fun hnot _ _ => absurd (by decide) hnot, fun _ hle hv => ?_⟩
    simp [compareAgainstBenchmark, BENCHMARK_DECIMALS_stats, normalizeToDecimal,
      nonPercentageFields, lowerIsBetterFields, decimal_fields, percentage_fields] at hv ⊢
    linarith
  by_cases h9 : f = "flashbang_leading_to_kill"
  · subst h9
    refine ⟨fun _ hle hv => ?_, fun hmem _ _ => absurd hmem (by decide)⟩
    simp [compareAgainstBenchmark, BENCHMARK_DECIMALS_stats, normalizeToDecimal,
      nonPercentageFields, lowerIsBetterFields, decimal_fields, percentage_fields] at hv ⊢
    linarith
  by_cases h10 : f = "traded_deaths_success_percentage"
  · subst h10
    refine ⟨fun _ hle hv => ?_, fun hmem _ _ => absurd hmem (by decide)⟩
    simp [compareAgainstBenchmark, BENCHMARK_DECIMALS_stats, normalizeToDecimal,
      nonPercentageFields, lowerIsBetterFields, decimal_fields, percentage_fields] at hv ⊢
    linarith
  by_cases h11 : f = "trade_kills_success_percentage"
  · subst h11
    refine ⟨fun _ hle hv => ?_, fun hmem _ _ => absurd hmem (by decide)⟩
    simp [compareAgainstBenchmark, BENCHMARK_DECIMALS_stats, normalizeToDecimal,
      nonPercentageFields, lowerIsBetterFields, decimal_fields, percentage_fields] at hv ⊢
    linarith
  by_cases h12 : f = "accuracy_head"
  · subst h12
    refine ⟨fun _ hle hv => ?_, fun hmem _ _ => absurd hmem (by decide)⟩
    simp [compareAgainstBenchmark, BENCHMARK_DECIMALS_stats, normalizeToDecimal,
      nonPercentageFields, lowerIsBetterFields, decimal_fields, percentage_fields] at hv ⊢
    linarith
  by_cases h13 : f = "preaim"
  · subst h13
    refine ⟨fun _ hle hv => ?_, fun hmem _ _ => absurd hmem (by decide)⟩
    simp [compareAgainstBenchmark, BENCHMARK_DECIMALS_stats, normalizeToDecimal,
      nonPercentageFields, lowerIsBetterFields, decimal_fields, percentage_fields] at hv ⊢
    linarith
  by_cases h14 : f = "spray_accuracy"
  · subst h14
    refine ⟨fun _ hle hv => ?_, fun hmem _ _ => absurd hmem (by decide)⟩
    simp [compareAgainstBenchmark, BENCHMARK_DECIMALS_stats, normalizeToDecimal,
      nonPercentageFields, lowerIsBetterFields, decimal_fields, percentage_fields] at hv ⊢
    linarith
  by_cases h15 : f = "he_foes_damage_avg"
  · subst h15
    refine ⟨fun _ hle hv => ?_, fun hmem _ _ => absurd hmem (by decide)⟩
    simp [compareAgainstBenchmark, BENCHMARK_DECIMALS_stats, normalizeToDecimal,
      nonPercentageFields, lowerIsBetterFields, decimal_fields, percentage_fields] at hv ⊢
    linarith
  by_cases h16 : f = "utility_on_death_avg"
  · subst h16
    refine ⟨fun hnot _ _ => absurd (by decide) hnot, fun _ hle hv => ?_⟩
    simp [compareAgainstBenchmark, BENCHMARK_DECIMALS_stats, normalizeToDecimal,
      nonPercentageFields, lowerIsBetterFields, decimal_fields, percentage_fields] at hv ⊢
    linarith
  by_cases h17 : f = "reaction_time_ms"
  · subst h17
    refine ⟨fun hnot _ _ => absurd (by decide) hnot, fun _ hle hv => ?_⟩
    simp [compareAgainstBenchmark, BENCHMARK_DECIMALS_stats, normalizeToDecimal,
      nonPercentageFields, lowerIsBetterFields, decimal_fields, percentage_fields] at hv ⊢
    linarith
  by_cases h18 : f = "flashbang_hit_foe_avg_duration"
  · subst h18
    refine ⟨fun _ hle hv => ?_, fun hmem _ _ => absurd hmem (by decide)⟩
    simp [compareAgainstBenchmark, BENCHMARK_DECIMALS_stats, normalizeToDecimal,
      nonPercentageFields, lowerIsBetterFields, decimal_fields, percentage_fields] at hv ⊢
    linarith
  by_cases h19 : f = "flashbang_thrown"
  · subst h19
    refine ⟨fun _ hle hv => ?_, fun hmem _ _ => absurd hmem (by decide)⟩
    simp [compareAgainstBenchmark, BENCHMARK_DECIMALS_stats, normalizeToDecimal,
      nonPercentageFields, lowerIsBetterFields, decimal_fields, percentage_fields] at hv ⊢
    linarith
  by_cases h20 : f = "he_friends_damage_avg"
  · subst h20
    refine ⟨fun hnot _ _ => absurd (by decide) hnot, fun _ hle hv => ?_⟩
    simp [compareAgainstBenchmark, BENCHMARK_DECIMALS_stats, normalizeToDecimal,
      nonPercentageFields, lowerIsBetterFields, decimal_fields, percentage_fields] at hv ⊢
    linarith
  by_cases h21 : f = "trade_kill_opportunities_per_round"
  · subst h21
    refine ⟨fun _ hle hv => ?_, fun hmem _ _ => absurd hmem (by decide)⟩
    simp [compareAgainstBenchmark, BENCHMARK_DECIMALS_stats, normalizeToDecimal,
      nonPercentageFields, lowerIsBetterFields, decimal_fields, percentage_fields] at hv ⊢
    linarith
  exfalso
  have hnone : BENCHMARK_DECIMALS_stats f = none := by
    simp only [BENCHMARK_DECIMALS_stats]
    rw [if_neg h1, if_neg h2, if_neg h3, if_neg h4, if_neg h5, if_neg h6, if_neg h7, if_neg h8, if_neg h9, if_neg h10, if_neg h11, if_neg h12, if_neg h13, if_neg h14, if_neg h15, if_neg h16, if_neg h17, if_neg h18, if_neg h19, if_neg h20, if_neg h21]
  rw [hnone] at hb
  exact Option.noConfusion hb

/-- Witness for C9: the amended theorem applied to `accuracy_head` at 40 → 50. -/
theorem C9_profile_monotone_witness :
    BENCHMARK_DECIMALS_stats "accuracy_head" = some (40/100) ∧
    "accuracy_head" ∉ lowerIsBetterFields ∧ (40:ℚ) ≤ 50 ∧
    compareAgainstBenchmark 40 "accuracy_head" .profile = true ∧
    compareAgainstBenchmark 50 "accuracy_head" .profile = true := by
  have hb : BENCHMARK_DECIMALS_stats "accuracy_head" = some (40/100) := rfl
  have h40 : compareAgainstBenchmark 40 "accuracy_head" .profile = true := by
    with_unfolding_all decide
  exact ⟨hb, by decide, by norm_num, h40,
    (C9_profile_monotone "accuracy_head" (40/100) 40 50 hb).1 (by decide) (by norm_num) h40⟩
